import Mathlib

/-!
# JA-BiA-Tools: the character patcher and the camera patcher

A shallow embedding of `experimental/vs12/JABIA/JABIA/src/dllmain.cpp` (the
character hook and its debug dialog) and of
`experimental/vs12/JABIA/JABIA_camera/src/dllmain.cpp` (the camera hook).

Conventions of the embedding:
* process memory is a map from addresses to byte values;
* `DWORD` / `uint32_t` arithmetic is arithmetic on `Nat` reduced mod `2 ^ 32`;
* local byte arrays (`BYTE x[6]`, `char buf[100]`) are lists.
-/

namespace JABIA

/-! ## Machine words and memory -/

/-- Process memory: the byte stored at each address. -/
abbrev Mem := Nat → Nat

/-- Number of values of a `DWORD`. -/
def DWORD_MOD : Nat := 2 ^ 32

/-- A value converted to `DWORD` / `uint32_t`. -/
def toDWORD (v : Nat) : Nat := v % DWORD_MOD

/-- Unsigned 32-bit addition. -/
def add32 (a b : Nat) : Nat := (a + b) % DWORD_MOD

/-- Unsigned 32-bit subtraction `a - b`, wrapping below zero. -/
def sub32 (a b : Nat) : Nat := (a % DWORD_MOD + (DWORD_MOD - b % DWORD_MOD)) % DWORD_MOD

/-- The four bytes of a `DWORD` as they lie in memory on x86 (least significant first). -/
def dwordBytes (v : Nat) : List Nat :=
  [v % 256, v / 256 % 256, v / 65536 % 256, v / 16777216 % 256]

/-- The `DWORD` stored as four little-endian bytes. -/
def bytesDword (bs : List Nat) : Nat :=
  bs.getD 0 0 + 256 * bs.getD 1 0 + 65536 * bs.getD 2 0 + 16777216 * bs.getD 3 0

/-- The `n` bytes of memory starting at `p` (the source of `memcpy(local, p, n)`). -/
def memRead (m : Mem) (p n : Nat) : List Nat :=
  (List.range n).map (fun i => m (p + i))

/-- Memory after `memcpy(p, bs, bs.length)`. -/
def memWrite (m : Mem) (p : Nat) (bs : List Nat) : Mem :=
  fun a => if p ≤ a ∧ a < p + bs.length then bs.getD (a - p) 0 else m a

/-- Local array after `memcpy(&dst[off], src, src.length)`. -/
def arrayCopy (dst : List Nat) (off : Nat) (src : List Nat) : List Nat :=
  dst.take off ++ src ++ dst.drop (off + src.length)

/-! ## `MyThread`: locating and patching the constructor return -/

/-- The macro `#define CHARACTER_CONST_OFFSET 0x132880` (FULL build). -/
def CHARACTER_CONST_OFFSET : Nat := 0x132880

/-- The macro `#define CHARACTER_CONST_RETN_OFFSET 0x2D8` (FULL build). -/
def CHARACTER_CONST_RETN_OFFSET : Nat := 0x2D8

/-- Value of `ParseCharacter` after line 83:
`(uint32_t)game_handle+CHARACTER_CONST_OFFSET+CHARACTER_CONST_RETN_OFFSET`. -/
def ParseCharacter (game_handle : Nat) : Nat :=
  add32 (add32 (toDWORD game_handle) CHARACTER_CONST_OFFSET) CHARACTER_CONST_RETN_OFFSET

/-- The local `DWORD JMPSize = ((DWORD)myCharacterConstRetrun - (DWORD)ParseCharacter - 5);` -/
def JMPSize (myCharacterConstRetrun parseCharacter : Nat) : Nat :=
  sub32 (sub32 myCharacterConstRetrun parseCharacter) 5

/-- The initial value of `BYTE JMP[6] = {0xE9, 0x90, 0x90, 0x90, 0x90, 0x90};` -/
def JMP_INIT : List Nat := [0xE9, 0x90, 0x90, 0x90, 0x90, 0x90]

/-- The array `JMP` after `memcpy(&JMP[1], &JMPSize, 4);`. -/
def JMP (jmpSize : Nat) : List Nat :=
  arrayCopy JMP_INIT 1 (dwordBytes jmpSize)

/-- What the install step leaves behind: the patched memory and the local `Before_JMP`. -/
structure Installed where
  mem : Mem
  Before_JMP : List Nat

/-- Install step of `MyThread` (lines 93 to 104) at the address held in `ParseCharacter`:
save 6 bytes into `Before_JMP`, build `JMP`, overwrite the 6 bytes with `JMP`. -/
def install (m : Mem) (parseCharacter myCharacterConstRetrun : Nat) : Installed :=
  let jmpSize := JMPSize myCharacterConstRetrun parseCharacter
  let before := memRead m parseCharacter 6
  let jmp := JMP jmpSize
  { mem := memWrite m parseCharacter (jmp.take 6), Before_JMP := before }

/-- Restore step of `MyThread` (lines 174 to 177):
`memcpy((void *)ParseCharacter, (void *)Before_JMP, 6);`. -/
def restore (m : Mem) (parseCharacter : Nat) (Before_JMP : List Nat) : Mem :=
  memWrite m parseCharacter (Before_JMP.take 6)

/-- Install step of `MyThread` for a module loaded at `game_handle`. -/
def MyThread_install (m : Mem) (game_handle myCharacterConstRetrun : Nat) : Installed :=
  install m (ParseCharacter game_handle) myCharacterConstRetrun

/-- Memory that holds zero everywhere. -/
def zeroMem : Mem := fun _ => 0

/-! ## `MyThread`: the polling loop and the unload path -/

/-- The call `jabia_characters.at(i)` with `i` an `int`: the index is converted to the unsigned
`size_type`, and `at` raises `std::out_of_range` (here `none`) when it is not below the
size. -/
def vector_at (v : List Nat) (i : Int) : Option Nat :=
  v.get? (i % 2 ^ 32).toNat

/-- What the environment delivers during one iteration of the `while(true)` loop. -/
structure Poll where
  /-- Value of `GetAsyncKeyState(VK_F7) & 1`, as a condition. -/
  f7 : Bool
  /-- Value of `GetAsyncKeyState(VK_F8) & 1`, as a condition (read only when `f7` fails). -/
  f8 : Bool
  /-- Value returned by `CreateDialog`. -/
  hDialog : Nat
  /-- Contents of `jabia_characters` when `at` is called. -/
  jabia_characters : List Nat
  /-- Value of `last_character_selected_index` when `at` is called. -/
  last_character_selected_index : Int
  /-- Successive values returned by `GetMessage`. -/
  statuses : List Int
  /-- Writes made to process memory during the iteration by the dialog procedure
  (`setCharacter`) and by the other threads of the game. -/
  env : Mem → Mem

/-- How the inner `GetMessage` loop (lines 155 to 164) ends. -/
inductive MessageLoopEnd where
  /-- The call to `GetMessage` returned 0: the loop condition fails. -/
  | quit
  /-- The call to `GetMessage` returned -1: `return -1`. -/
  | error
  /-- No further message was delivered: the thread stays in `GetMessage`. -/
  | waiting
  deriving DecidableEq, Repr

/-- The inner message loop over the values `GetMessage` returns. -/
def messageLoop : List Int → MessageLoopEnd
  | [] => MessageLoopEnd.waiting
  | status :: rest =>
    if status = 0 then MessageLoopEnd.quit
    else if status = -1 then MessageLoopEnd.error
    else messageLoop rest

/-- How an execution of `MyThread` ends. -/
inductive Exit where
  /-- The call `FreeLibraryAndExitThread(g_hModule, 0)` was reached. -/
  | freeLibraryAndExitThread
  /-- A `return` statement inside the loop was executed with this value. -/
  | returned (code : Int)
  /-- The exception `std::out_of_range` escaped from `jabia_characters.at`. -/
  | out_of_range
  /-- The thread is still inside `GetMessage`. -/
  | inGetMessage
  /-- The thread is still polling (the environment delivered no further iteration). -/
  | polling
  deriving DecidableEq, Repr

/-- How the `while(true)` loop is left, with the memory at that point and the number of
iterations that were started. -/
structure LoopEnd where
  /-- Holds `none` when the loop was left by `break`, otherwise how the thread ended inside it. -/
  exit : Option Exit
  mem : Mem
  iterations : Nat

/-- The `while(true)` loop of `MyThread` (lines 107 to 171). -/
def pollLoop (m : Mem) : List Poll → LoopEnd
  | [] => { exit := some Exit.polling, mem := m, iterations := 0 }
  | p :: rest =>
    let m1 := p.env m
    if p.f7 then
      match vector_at p.jabia_characters p.last_character_selected_index with
      | none => { exit := some Exit.out_of_range, mem := m1, iterations := 1 }
      | some _ =>
        if p.hDialog = 0 then { exit := some (Exit.returned 1), mem := m1, iterations := 1 }
        else
          match messageLoop p.statuses with
          | MessageLoopEnd.error =>
            { exit := some (Exit.returned (-1)), mem := m1, iterations := 1 }
          | MessageLoopEnd.waiting =>
            { exit := some Exit.inGetMessage, mem := m1, iterations := 1 }
          | MessageLoopEnd.quit =>
            let r := pollLoop m1 rest
            { r with iterations := r.iterations + 1 }
    else if p.f8 then { exit := none, mem := m1, iterations := 1 }
    else
      let r := pollLoop m1 rest
      { r with iterations := r.iterations + 1 }

/-- An execution of `MyThread`: how it ended, the final memory, the `memcpy` calls into
process memory it made (in order, destination and bytes), and the number of loop
iterations started. -/
structure ThreadEnd where
  exit : Exit
  mem : Mem
  memcpys : List (Nat × List Nat)
  iterations : Nat

/-- The function `MyThread` (lines 73 to 181), run against the iterations the
environment delivers. -/
def MyThread (m : Mem) (game_handle myCharacterConstRetrun : Nat) (polls : List Poll) :
    ThreadEnd :=
  let parseCharacter := ParseCharacter game_handle
  let inst := install m parseCharacter myCharacterConstRetrun
  let patch := (parseCharacter, (JMP (JMPSize myCharacterConstRetrun parseCharacter)).take 6)
  let r := pollLoop inst.mem polls
  match r.exit with
  | some e => { exit := e, mem := r.mem, memcpys := [patch], iterations := r.iterations }
  | none =>
    { exit := Exit.freeLibraryAndExitThread,
      mem := restore r.mem parseCharacter inst.Before_JMP,
      memcpys := [patch, (parseCharacter, inst.Before_JMP.take 6)],
      iterations := r.iterations }

/-- A sample environment for `MyThread`: F7 with one recorded character and a dialog that
is closed after two messages (while the dialog writes to the character record), one idle
iteration, then F8. -/
def samplePolls : List Poll :=
  [ { f7 := true, f8 := false, hDialog := 1, jabia_characters := [0x2000],
      last_character_selected_index := 0, statuses := [1, 1, 0],
      env := fun m => memWrite m 0x2000 [7] },
    { f7 := false, f8 := false, hDialog := 0, jabia_characters := [0x2000],
      last_character_selected_index := 0, statuses := [], env := fun m => m },
    { f7 := false, f8 := true, hDialog := 0, jabia_characters := [0x2000],
      last_character_selected_index := 0, statuses := [], env := fun m => m } ]

/-! ## The detour `myCharacterConstRetrun` and `recordCharacters` -/

/-- The part of the x86 machine state the detour works on, with the global vector
`jabia_characters`. `stack a` is the `DWORD` stored at address `a`. -/
structure Cpu where
  eax : Nat
  esp : Nat
  eip : Nat
  stack : Nat → Nat
  jabia_characters : List Nat

/-- The statement `jabia_characters.clear();` (line 89 of `MyThread`). -/
def jabia_characters_clear (_jabia_characters : List Nat) : List Nat := []

/-- The instruction `push v`. -/
def push (v : Nat) (s : Cpu) : Cpu :=
  { s with esp := sub32 s.esp 4
           stack := fun a => if a = sub32 s.esp 4 then v else s.stack a }

/-- The instruction `pop eax`. -/
def pop_eax (s : Cpu) : Cpu :=
  { s with eax := s.stack s.esp, esp := add32 s.esp 4 }

/-- The instruction `retn n`: pop the return address into `eip`, then release `n` bytes of arguments. -/
def retn (n : Nat) (s : Cpu) : Cpu :=
  { s with eip := s.stack s.esp, esp := add32 (add32 s.esp 4) n }

/-- The value `recordCharacters` (FULL build) loads into `character_ptr`:
`mov eax, [esp+0x148]`. The state is the one at the entry of `recordCharacters` (`esp`
points at the return address); `frame` is the number of bytes by which the code the
compiler emits before the body has lowered `esp` below that point. -/
def character_ptr (frame : Nat) (s : Cpu) : Nat :=
  s.stack (add32 (sub32 s.esp frame) 0x148)

/-- The function `recordCharacters` (FULL build), from its entry to its `ret`:
`jabia_characters.push_back(character_ptr)`. It is `__cdecl`, so its `ret` pops only the
return address; `eax` is not preserved and holds `eaxOut` on return. The locals of the
function live below its return address and are not tracked. -/
def recordCharacters (frame eaxOut : Nat) (s : Cpu) : Cpu :=
  { s with eax := eaxOut
           jabia_characters := s.jabia_characters ++ [character_ptr frame s]
           eip := s.stack s.esp
           esp := add32 s.esp 4 }

/-- The detour `myCharacterConstRetrun` (FULL build):
`push eax; call recordCharacters; pop eax; retn 0x1C`. `next` is the address of the
instruction after the `call`. -/
def myCharacterConstRetrun (frame eaxOut next : Nat) (s : Cpu) : Cpu :=
  let s1 := push s.eax s
  let s2 := push next s1
  let s3 := recordCharacters frame eaxOut s2
  let s4 := pop_eax s3
  retn 0x1C s4

/-- The vector `jabia_characters` after a sequence of calls of `recordCharacters`; each
call comes with the machine state at its entry and the value it leaves in `eax`. -/
def recordCalls (frame : Nat) (jabia_characters : List Nat) : List (Nat × Cpu) → List Nat
  | [] => jabia_characters
  | (eaxOut, s) :: rest =>
    recordCalls frame
      (recordCharacters frame eaxOut { s with jabia_characters := jabia_characters }).jabia_characters
      rest

/-- The globals of the camera patcher. -/
structure CameraGlobals where
  CameraCallback : Nat
  game_handle : Nat
  g_threadID : Nat
  g_hModule : Nat
  camera_ptr : Nat
  deriving DecidableEq, Repr

/-- The hook `myCameraCallback(u1, u2)`, called with `ecx` holding the camera object:
`mov camera_ptr, ecx` and then `return CameraCallback(u1, u2);`. `code p` is the behaviour of
the function the pointer `p` designates (the original camera callback for the pointer held
in `CameraCallback`): from `ecx`, the two arguments and the state of the game it gives the
returned value and the new state of the game. The `float` argument is carried as its bit
pattern. -/
def myCameraCallback {G : Type} (code : Nat → Nat → Nat → Int → G → Int × G)
    (ecx u1 : Nat) (u2 : Int) (globals : CameraGlobals) (game : G) :
    Int × CameraGlobals × G :=
  let globals1 := { globals with camera_ptr := ecx }
  let r := code globals1.CameraCallback ecx u1 u2 game
  (r.1, globals1, r.2)

/-! ## The dialog, the character record and `setCharacter` -/

/-- Modelled from the spec: `resource.h` is not among the sources; the identifiers of the
dialog controls that `DialogProc`, `fillDialog` and `setCharacter` use are taken as
distinct names. -/
inductive Ctl where
  | IDC_COMBO1 | IDC_COMBO2 | IDC_ADDRESS
  | IDC_LEV | IDC_EX | IDC_TP
  | IDC_WPN_EQ | IDC_WPN_EQ_DUR
  | IDC_HELM_EQ | IDC_HELM_EQ_DUR
  | IDC_EYE_EQ | IDC_EYE_EQ_DUR
  | IDC_SPC_EQ | IDC_SPC_EQ_LEFT
  | IDC_SHRT_EQ | IDC_SHRT_EQ_DUR
  | IDC_VEST_EQ | IDC_VEST_DUR
  | IDC_SHOES_EQ | IDC_SHOES_DUR
  | IDC_PANTS_EQ | IDC_PANTS_DUR
  | IDC_AMMO_EQ | IDC_AMMO_EQ_CNT
  | IDC_WPN_MOD
  | IDC_HLTH | IDC_STAMINA
  | IDC_MERC_NAME | IDC_MERC_FAC | IDC_MED_COND
  | IDC_WPN_INV | IDC_WPN_INV_DUR | IDC_AMMO_INV_CNT
  | IDC_AG | IDC_DEX | IDC_STR | IDC_INT | IDC_PER
  | IDC_MED | IDC_EXPL | IDC_MARK | IDC_STEALTH | IDC_MECH
  deriving DecidableEq, Repr

/-- State of the dialog: the text each control holds. -/
abbrev Dialog := Ctl → List Char

/-- The call `GetDlgItemText(hwnd, id, buf, nMaxCount)`: the string left in `buf`, which is the text
of the control cut to `nMaxCount - 1` characters (the last place is for the NUL). -/
def GetDlgItemText (hwnd : Dialog) (id : Ctl) (nMaxCount : Nat) : List Char :=
  (hwnd id).take (nMaxCount - 1)

/-- The function `isspace` of the C locale. -/
def isspace (c : Char) : Bool :=
  c.toNat = 32 || (9 ≤ c.toNat && c.toNat ≤ 13)

/-- The function `isdigit`. -/
def isdigit (c : Char) : Bool :=
  48 ≤ c.toNat && c.toNat ≤ 57

/-- Value of the leading run of decimal digits of a string, continuing from `acc`. -/
def digitsValue (acc : Nat) : List Char → Nat
  | [] => acc
  | c :: cs => if isdigit c then digitsValue (10 * acc + (c.toNat - 48)) cs else acc

/-- The constant `INT_MAX` for the 32-bit `int`. -/
def INT_MAX : Int := 2147483647

/-- The constant `INT_MIN` for the 32-bit `int`. -/
def INT_MIN : Int := -2147483648

/-- The function `atoi` of the C runtime: white space is skipped, an optional sign is read, then the
leading decimal digits; a value outside `int` gives `INT_MAX` or `INT_MIN`. -/
def atoi (s : List Char) : Int :=
  match s.dropWhile isspace with
  | [] => 0
  | c :: rest =>
    if c = '-' then max INT_MIN (-(digitsValue 0 rest : Int))
    else if c = '+' then min INT_MAX (digitsValue 0 rest : Int)
    else min INT_MAX (digitsValue 0 (c :: rest) : Int)

/-- Conversion of an `int` to `uint32_t`. -/
def toUint32 (v : Int) : Nat := (v % 2 ^ 32).toNat

/-- Conversion of an `int` to `uint16_t`. -/
def toUint16 (v : Int) : Nat := (v % 2 ^ 16).toNat

/-- The NUL character. -/
def NUL : Char := Char.ofNat 0

/-- The function `strlen`: the number of characters before the first NUL. -/
def strlen (s : List Char) : Nat :=
  (s.takeWhile (fun c => c != NUL)).length

/-- Modelled from the spec: `character.h` is not among the sources; an inventory weapon
slot has the four members that `fillDialog` and `setCharacter` use. -/
structure JABIA_Character_weapon where
  weapon : Nat
  removable : Nat
  weapon_durability : Nat
  ammo_count : Nat
  deriving DecidableEq, Repr

/-- Modelled from the spec: `character.h` is not among the sources; these are the scalar
members of `JABIA_Character` that `fillDialog` and `setCharacter` use. -/
inductive Member where
  | level | experience | training_points | weapon_in_hand | weapon_in_hand_removable
  | weapon_in_hand_durability | helmet_equiped | helmet_equiped_durability | eyewear_equiped
  | eyewear_equiped_durability | special_equiped | special_equiped_charges | shirt_equiped
  | shirt_equiped_durability | vest_equiped | vest_equiped_durability | shoes_equiped
  | shoes_equiped_durability | pants_equiped | pants_equiped_durability | ammo_equiped
  | ammo_equiped_count | weapon_attachment_removable | weapon_attachment_status | name_length
  | health | stamina | faction | medical_condition | agility | dexterity | strength
  | intelligence | perception | medical | explosives | marksmanship | stealth | mechanical
  deriving DecidableEq, Repr

/-- Modelled from the spec: `character.h` is not among the sources; the record gives the
value of each scalar member (each holds a value of the type of the local of the same name
in `setCharacter`, `uint32_t` or `uint16_t`; `health` and `stamina` hold the bit pattern
of a `float`), the `char` array `merc_name` and the array `weapons`. -/
structure JABIA_Character where
  member : Member → Nat
  merc_name : List Char
  weapons : List JABIA_Character_weapon

/-- The record after `character_ptr->m = v`. -/
def JABIA_Character.assign (c : JABIA_Character) (m : Member) (v : Nat) : JABIA_Character :=
  { c with member := fun k => if k = m then v else c.member k }

/-- The array `weapons` after `weapons[i] = f(weapons[i])`, for `i` inside the array. -/
def modifySlot (f : JABIA_Character_weapon → JABIA_Character_weapon) :
    Nat → List JABIA_Character_weapon → List JABIA_Character_weapon
  | _, [] => []
  | 0, w :: ws => f w :: ws
  | i + 1, w :: ws => w :: modifySlot f i ws

/-- The record after an assignment to a member of `character_ptr->weapons[i]`, for `i`
inside the array. -/
def JABIA_Character.assignSlot (c : JABIA_Character) (i : Nat)
    (f : JABIA_Character_weapon → JABIA_Character_weapon) : JABIA_Character :=
  { c with weapons := modifySlot f i c.weapons }

/-- The record after `memcpy(character_ptr->merc_name, buf, n)` with `bytes` the first `n`
bytes of `buf`. -/
def JABIA_Character.assignName (c : JABIA_Character) (bytes : List Char) : JABIA_Character :=
  { c with merc_name := bytes }

/-- The record after
`character_ptr->name_length = (uint32_t)strlen(character_ptr->merc_name);`. -/
def JABIA_Character.assignNameLength (c : JABIA_Character) : JABIA_Character :=
  c.assign Member.name_length (toDWORD (strlen c.merc_name))

/-- The name as `setCharacter` leaves it in `buf` before copying it (lines 593 and 594):
`n` zeroed bytes, then the text of the control cut to `n - 1` characters. -/
def nameBuffer (hwnd : Dialog) (n : Nat) : List Char :=
  GetDlgItemText hwnd Ctl.IDC_MERC_NAME n
    ++ List.replicate (n - (GetDlgItemText hwnd Ctl.IDC_MERC_NAME n).length) NUL

/-- The function `setCharacter(hwnd, ptr)` (lines 451 to 671) on the record `ptr` points to.
`atof` gives the bit pattern of `(float)atof(buf)`; `maxName` is
`JABIA_CHARACTER_MAX_NAME_LENGTH` (at most 100, the size of `buf`); `slot` is the global
`last_weaponslot_selected_index`. The result is `none` when `slot` is not an index of
`weapons`: lines 601 to 611 then write outside the array. -/
def setCharacter (atof : List Char → Nat) (maxName : Nat) (hwnd : Dialog) (slot : Int)
    (character : JABIA_Character) : Option JABIA_Character :=
  if 0 ≤ slot ∧ slot.toNat < character.weapons.length then
    some (character
      |>.assign Member.level (toUint32 (atoi (GetDlgItemText hwnd Ctl.IDC_LEV 100)))
      |>.assign Member.experience (toUint32 (atoi (GetDlgItemText hwnd Ctl.IDC_EX 100)))
      |>.assign Member.training_points (toUint32 (atoi (GetDlgItemText hwnd Ctl.IDC_TP 100)))
      |>.assign Member.weapon_in_hand (toUint16 (atoi (GetDlgItemText hwnd Ctl.IDC_WPN_EQ 100)))
      |>.assign Member.weapon_in_hand_removable 1
      |>.assign Member.weapon_in_hand_durability (toUint16 (atoi (GetDlgItemText hwnd Ctl.IDC_WPN_EQ_DUR 100)))
      |>.assign Member.helmet_equiped (toUint16 (atoi (GetDlgItemText hwnd Ctl.IDC_HELM_EQ 100)))
      |>.assign Member.helmet_equiped_durability (toUint16 (atoi (GetDlgItemText hwnd Ctl.IDC_HELM_EQ_DUR 100)))
      |>.assign Member.eyewear_equiped (toUint16 (atoi (GetDlgItemText hwnd Ctl.IDC_EYE_EQ 100)))
      |>.assign Member.eyewear_equiped_durability (toUint16 (atoi (GetDlgItemText hwnd Ctl.IDC_EYE_EQ_DUR 100)))
      |>.assign Member.special_equiped (toUint16 (atoi (GetDlgItemText hwnd Ctl.IDC_SPC_EQ 100)))
      |>.assign Member.special_equiped_charges (toUint16 (atoi (GetDlgItemText hwnd Ctl.IDC_SPC_EQ_LEFT 100)))
      |>.assign Member.shirt_equiped (toUint16 (atoi (GetDlgItemText hwnd Ctl.IDC_SHRT_EQ 100)))
      |>.assign Member.shirt_equiped_durability (toUint16 (atoi (GetDlgItemText hwnd Ctl.IDC_SHRT_EQ_DUR 100)))
      |>.assign Member.vest_equiped (toUint16 (atoi (GetDlgItemText hwnd Ctl.IDC_VEST_EQ 100)))
      |>.assign Member.vest_equiped_durability (toUint16 (atoi (GetDlgItemText hwnd Ctl.IDC_VEST_DUR 100)))
      |>.assign Member.shoes_equiped (toUint16 (atoi (GetDlgItemText hwnd Ctl.IDC_SHOES_EQ 100)))
      |>.assign Member.vest_equiped_durability (toUint16 (atoi (GetDlgItemText hwnd Ctl.IDC_SHOES_DUR 100)))
      |>.assign Member.pants_equiped (toUint16 (atoi (GetDlgItemText hwnd Ctl.IDC_PANTS_EQ 100)))
      |>.assign Member.pants_equiped_durability (toUint16 (atoi (GetDlgItemText hwnd Ctl.IDC_PANTS_DUR 100)))
      |>.assign Member.ammo_equiped (toUint16 (atoi (GetDlgItemText hwnd Ctl.IDC_AMMO_EQ 100)))
      |>.assign Member.ammo_equiped_count (toUint16 (atoi (GetDlgItemText hwnd Ctl.IDC_AMMO_EQ_CNT 100)))
      |>.assign Member.weapon_attachment_removable (toUint16 (atoi (GetDlgItemText hwnd Ctl.IDC_WPN_MOD 100)))
      |>.assign Member.weapon_attachment_status 1
      |>.assignName (nameBuffer hwnd maxName)
      |>.assignNameLength
      |>.assignSlot slot.toNat (fun w => { w with weapon := toUint16 (atoi (GetDlgItemText hwnd Ctl.IDC_WPN_INV 100)) })
      |>.assignSlot slot.toNat (fun w => { w with weapon_durability := toUint16 (atoi (GetDlgItemText hwnd Ctl.IDC_WPN_INV_DUR 100)) })
      |>.assignSlot slot.toNat (fun w => { w with ammo_count := toUint16 (atoi (GetDlgItemText hwnd Ctl.IDC_AMMO_INV_CNT 100)) })
      |>.assignSlot slot.toNat (fun w => { w with removable := 1 })
      |>.assign Member.health (atof (GetDlgItemText hwnd Ctl.IDC_HLTH 100))
      |>.assign Member.stamina (atof (GetDlgItemText hwnd Ctl.IDC_STAMINA 100))
      |>.assign Member.faction (toUint32 (atoi (GetDlgItemText hwnd Ctl.IDC_MERC_FAC 100)))
      |>.assign Member.medical_condition (toUint32 (atoi (GetDlgItemText hwnd Ctl.IDC_MED_COND 100)))
      |>.assign Member.agility (toUint32 (atoi (GetDlgItemText hwnd Ctl.IDC_AG 100)))
      |>.assign Member.dexterity (toUint32 (atoi (GetDlgItemText hwnd Ctl.IDC_DEX 100)))
      |>.assign Member.strength (toUint32 (atoi (GetDlgItemText hwnd Ctl.IDC_STR 100)))
      |>.assign Member.intelligence (toUint32 (atoi (GetDlgItemText hwnd Ctl.IDC_INT 100)))
      |>.assign Member.perception (toUint32 (atoi (GetDlgItemText hwnd Ctl.IDC_PER 100)))
      |>.assign Member.medical (toUint32 (atoi (GetDlgItemText hwnd Ctl.IDC_MED 100)))
      |>.assign Member.explosives (toUint32 (atoi (GetDlgItemText hwnd Ctl.IDC_EXPL 100)))
      |>.assign Member.marksmanship (toUint32 (atoi (GetDlgItemText hwnd Ctl.IDC_MARK 100)))
      |>.assign Member.stealth (toUint32 (atoi (GetDlgItemText hwnd Ctl.IDC_STEALTH 100)))
      |>.assign Member.mechanical (toUint32 (atoi (GetDlgItemText hwnd Ctl.IDC_MECH 100))))
  else none

/-- A sample record: every scalar member 0 except the two durabilities of the vest (20)
and of the shoes (10), no name, three empty weapon slots. -/
def sampleCharacter : JABIA_Character :=
  { member := fun k =>
      if k = Member.vest_equiped_durability then 20
      else if k = Member.shoes_equiped_durability then 10 else 0,
    merc_name := [],
    weapons := [⟨0, 0, 0, 0⟩, ⟨0, 0, 0, 0⟩, ⟨0, 0, 0, 0⟩] }

/-- A sample dialog: level 12, vest durability 50, shoes durability 70, name Ivan, and 0
in every other control. -/
def sampleDialog : Dialog := fun id =>
  match id with
  | Ctl.IDC_LEV => ['1', '2']
  | Ctl.IDC_VEST_DUR => ['5', '0']
  | Ctl.IDC_SHOES_DUR => ['7', '0']
  | Ctl.IDC_MERC_NAME => ['I', 'v', 'a', 'n']
  | _ => ['0']

/-- A dialog whose level control holds 99 zeros followed by 7 (100 characters), every
other control holding 0. -/
def longLevelDialog : Dialog := fun id =>
  match id with
  | Ctl.IDC_LEV => List.replicate 99 '0' ++ ['7']
  | _ => ['0']

/-- A stand-in for `(float)atof`, giving the bit pattern of `0.0f` for every text. -/
def atofZero : List Char → Nat := fun _ => 0

/-! ## `fillDialog` -/

/-- Conversion of a `uint32_t` or `uint16_t` value to `int`. -/
def toInt32 (v : Nat) : Int :=
  if v % 2 ^ 32 < 2 ^ 31 then ((v % 2 ^ 32 : Nat) : Int)
  else ((v % 2 ^ 32 : Nat) : Int) - 2 ^ 32

/-- The string that `_itoa_s(value, buf, 100, 10)` leaves in `buf`: the decimal digits of
`value`, after a minus sign when it is negative. -/
def itoa10 (value : Int) : List Char :=
  if value < 0 then '-' :: Nat.toDigits 10 (-value).toNat else Nat.toDigits 10 value.toNat

/-- The string that `_itoa_s(value, buf, 100, 16)` leaves in `buf`: the hexadecimal digits
of `value` taken as an unsigned 32-bit number. -/
def itoa16 (value : Nat) : List Char :=
  Nat.toDigits 16 (value % 2 ^ 32)

/-- The dialog after `SetDlgItemText(hwnd, id, text)` (the dialog comes last here, so that
the calls chain). -/
def SetDlgItemText (id : Ctl) (text : List Char) (hwnd : Dialog) : Dialog :=
  fun k => if k = id then text else hwnd k

/-- The C string that starts a buffer: the characters before the first NUL. -/
def cstring (buf : List Char) : List Char :=
  buf.takeWhile (fun c => c != NUL)

/-- The calls of `SetDlgItemText` that `fillDialog` makes, in order, for the record
`character` at address `ptr`, with `w` the weapon slot `weapons[slot]`. -/
def fillTexts (ftoa : Nat → List Char) (ptr : Nat) (character : JABIA_Character)
    (w : JABIA_Character_weapon) (hwnd : Dialog) : Dialog :=
  hwnd
  |> SetDlgItemText Ctl.IDC_ADDRESS (itoa16 ptr)
  |> SetDlgItemText Ctl.IDC_LEV (itoa10 (toInt32 (character.member Member.level)))
  |> SetDlgItemText Ctl.IDC_EX (itoa10 (toInt32 (character.member Member.experience)))
  |> SetDlgItemText Ctl.IDC_TP
      (itoa10 (toInt32 (character.member Member.training_points)))
  |> SetDlgItemText Ctl.IDC_WPN_EQ
      (itoa10 (toInt32 (character.member Member.weapon_in_hand)))
  |> SetDlgItemText Ctl.IDC_WPN_EQ_DUR
      (itoa10 (toInt32 (character.member Member.weapon_in_hand_durability)))
  |> SetDlgItemText Ctl.IDC_HELM_EQ
      (itoa10 (toInt32 (character.member Member.helmet_equiped)))
  |> SetDlgItemText Ctl.IDC_HELM_EQ_DUR
      (itoa10 (toInt32 (character.member Member.helmet_equiped_durability)))
  |> SetDlgItemText Ctl.IDC_EYE_EQ
      (itoa10 (toInt32 (character.member Member.eyewear_equiped)))
  |> SetDlgItemText Ctl.IDC_EYE_EQ_DUR
      (itoa10 (toInt32 (character.member Member.eyewear_equiped_durability)))
  |> SetDlgItemText Ctl.IDC_SPC_EQ
      (itoa10 (toInt32 (character.member Member.special_equiped)))
  |> SetDlgItemText Ctl.IDC_SPC_EQ_LEFT
      (itoa10 (toInt32 (character.member Member.special_equiped_charges)))
  |> SetDlgItemText Ctl.IDC_SHRT_EQ
      (itoa10 (toInt32 (character.member Member.shirt_equiped)))
  |> SetDlgItemText Ctl.IDC_SHRT_EQ_DUR
      (itoa10 (toInt32 (character.member Member.shirt_equiped_durability)))
  |> SetDlgItemText Ctl.IDC_VEST_EQ
      (itoa10 (toInt32 (character.member Member.vest_equiped)))
  |> SetDlgItemText Ctl.IDC_VEST_DUR
      (itoa10 (toInt32 (character.member Member.vest_equiped_durability)))
  |> SetDlgItemText Ctl.IDC_SHOES_EQ
      (itoa10 (toInt32 (character.member Member.shoes_equiped)))
  |> SetDlgItemText Ctl.IDC_SHOES_DUR
      (itoa10 (toInt32 (character.member Member.shoes_equiped_durability)))
  |> SetDlgItemText Ctl.IDC_PANTS_EQ
      (itoa10 (toInt32 (character.member Member.pants_equiped)))
  |> SetDlgItemText Ctl.IDC_PANTS_DUR
      (itoa10 (toInt32 (character.member Member.pants_equiped_durability)))
  |> SetDlgItemText Ctl.IDC_AMMO_EQ
      (itoa10 (toInt32 (character.member Member.ammo_equiped)))
  |> SetDlgItemText Ctl.IDC_AMMO_EQ_CNT
      (itoa10 (toInt32 (character.member Member.ammo_equiped_count)))
  |> SetDlgItemText Ctl.IDC_AMMO_EQ_CNT
      (itoa10 (toInt32 (character.member Member.ammo_equiped_count)))
  |> SetDlgItemText Ctl.IDC_WPN_MOD
      (itoa10 (toInt32 (character.member Member.weapon_attachment_removable)))
  |> SetDlgItemText Ctl.IDC_HLTH (ftoa (character.member Member.health))
  |> SetDlgItemText Ctl.IDC_STAMINA (ftoa (character.member Member.stamina))
  |> SetDlgItemText Ctl.IDC_MERC_NAME
      (cstring (character.merc_name.take (character.member Member.name_length)))
  |> SetDlgItemText Ctl.IDC_MERC_FAC (itoa10 (toInt32 (character.member Member.faction)))
  |> SetDlgItemText Ctl.IDC_MED_COND
      (itoa10 (toInt32 (character.member Member.medical_condition)))
  |> SetDlgItemText Ctl.IDC_WPN_INV (itoa10 (toInt32 w.weapon))
  |> SetDlgItemText Ctl.IDC_WPN_INV_DUR (itoa10 (toInt32 w.weapon_durability))
  |> SetDlgItemText Ctl.IDC_AMMO_INV_CNT (itoa10 (toInt32 w.ammo_count))
  |> SetDlgItemText Ctl.IDC_AG (itoa10 (toInt32 (character.member Member.agility)))
  |> SetDlgItemText Ctl.IDC_DEX (itoa10 (toInt32 (character.member Member.dexterity)))
  |> SetDlgItemText Ctl.IDC_STR (itoa10 (toInt32 (character.member Member.strength)))
  |> SetDlgItemText Ctl.IDC_INT (itoa10 (toInt32 (character.member Member.intelligence)))
  |> SetDlgItemText Ctl.IDC_PER (itoa10 (toInt32 (character.member Member.perception)))
  |> SetDlgItemText Ctl.IDC_MED (itoa10 (toInt32 (character.member Member.medical)))
  |> SetDlgItemText Ctl.IDC_EXPL (itoa10 (toInt32 (character.member Member.explosives)))
  |> SetDlgItemText Ctl.IDC_MARK (itoa10 (toInt32 (character.member Member.marksmanship)))
  |> SetDlgItemText Ctl.IDC_STEALTH (itoa10 (toInt32 (character.member Member.stealth)))
  |> SetDlgItemText Ctl.IDC_MECH (itoa10 (toInt32 (character.member Member.mechanical)))

/-- The function `fillDialog(hwnd, ptr)` (lines 309 to 449) for the record `ptr` points to.
`ftoa` gives the text `sprintf_s` prints with `"%.1f"` for a `float` bit pattern; `slot` is
the global `last_weaponslot_selected_index`. The result is `none` when `slot` is not an
index of `weapons` (lines 407 to 413 then read outside the array), and when `name_length`
is 16 or more or exceeds the size of `merc_name` (line 397 then copies bytes from outside
`merc_name`, or leaves the string in `buf` without its NUL inside the 16 zeroed bytes). -/
def fillDialog (ftoa : Nat → List Char) (slot : Int) (ptr : Nat) (character : JABIA_Character)
    (hwnd : Dialog) : Option Dialog :=
  if 0 ≤ slot ∧ character.member Member.name_length < 16
      ∧ character.member Member.name_length ≤ character.merc_name.length then
    match character.weapons.get? slot.toNat with
    | none => none
    | some w => some (fillTexts ftoa ptr character w hwnd)
  else none

/-- The record `setCharacter` leaves when it runs on the dialog that `fillDialog` has just
filled from the same record, the text of the dialog untouched in between. -/
def fillThenSet (atof : List Char → Nat) (ftoa : Nat → List Char) (maxName : Nat)
    (slot : Int) (ptr : Nat) (hwnd : Dialog) (character : JABIA_Character) :
    Option JABIA_Character :=
  match fillDialog ftoa slot ptr character hwnd with
  | none => none
  | some filled => setCharacter atof maxName filled slot character

/-- A stand-in for the `"%.1f"` formatting, printing `0.0` for every bit pattern. -/
def ftoaZero : Nat → List Char := fun _ => ['0', '.', '0']

/-- A dialog with every control empty. -/
def emptyDialog : Dialog := fun _ => []

/-- The members for which the local of the same name in `setCharacter` is a `uint32_t`. -/
def uint32Members : List Member :=
  [Member.level, Member.experience, Member.training_points, Member.faction,
   Member.medical_condition, Member.agility, Member.dexterity, Member.strength,
   Member.intelligence, Member.perception, Member.medical, Member.explosives,
   Member.marksmanship, Member.stealth, Member.mechanical]

/-- The members for which the local of the same name in `setCharacter` is a `uint16_t`. -/
def uint16Members : List Member :=
  [Member.weapon_in_hand, Member.weapon_in_hand_durability, Member.helmet_equiped,
   Member.helmet_equiped_durability, Member.eyewear_equiped,
   Member.eyewear_equiped_durability, Member.special_equiped,
   Member.special_equiped_charges, Member.shirt_equiped, Member.shirt_equiped_durability,
   Member.vest_equiped, Member.vest_equiped_durability, Member.shoes_equiped,
   Member.shoes_equiped_durability, Member.pants_equiped, Member.pants_equiped_durability,
   Member.ammo_equiped, Member.ammo_equiped_count, Member.weapon_attachment_removable]

/-- The record holds in each integer member, and in each member of each weapon slot, a
value of the type of that member (`uint32_t` or `uint16_t`). -/
def fitsTypes (c : JABIA_Character) : Prop :=
  (∀ k ∈ uint32Members, c.member k < 2 ^ 32) ∧
  (∀ k ∈ uint16Members, c.member k < 2 ^ 16) ∧
  (∀ w ∈ c.weapons, w.weapon < 2 ^ 16 ∧ w.weapon_durability < 2 ^ 16 ∧ w.ammo_count < 2 ^ 16)

/-- The members `setCharacter` does not take from a decimal text of the dialog: the two
flags it forces to 1, the length of the name, and the two `float` members. -/
def notDecimalMembers : List Member :=
  [Member.weapon_in_hand_removable, Member.weapon_attachment_status, Member.name_length,
   Member.health, Member.stamina]

/-! ## `DialogProc`: the `WM_COMMAND` branch -/

/-- The notification code `CBN_CLOSEUP` of `winuser.h`. -/
def CBN_CLOSEUP : Nat := 8

/-- Modelled from the spec: `resource.h` is not among the sources; the command identifiers
that label a `case` of the `WM_COMMAND` switch are taken as distinct names (the compiler
refuses a `switch` with two equal labels), and `other` stands for every other value of
`LOWORD(wParam)`. -/
inductive Command where
  | IDC_COMBO1 | IDC_COMBO2 | IDSET | IDM_DUMP_CHARACTER | IDCANCEL | other
  deriving DecidableEq, Repr

/-- What `DialogProc` reads and writes while it handles a `WM_COMMAND` message. -/
structure DialogState where
  /-- The global vector of recorded character pointers. -/
  jabia_characters : List Nat
  /-- The character record at each address of process memory. -/
  records : Nat → JABIA_Character
  /-- The global `int last_character_selected_index`. -/
  last_character_selected_index : Int
  /-- The global `int last_weaponslot_selected_index`. -/
  last_weaponslot_selected_index : Int
  /-- The text of the controls of the dialog. -/
  hwnd : Dialog
  /-- Answer of `comboControl1` to `CB_GETCURSEL`: the selected index, -1 for none. -/
  comboControl1 : Int
  /-- Answer of `comboControl2` to `CB_GETCURSEL`: the selected index, -1 for none. -/
  comboControl2 : Int
  /-- Answer of `GetSaveFileName`: whether the user chose a file. -/
  GetSaveFileName : Bool
  /-- The records passed to `dump_character` so far, latest first. -/
  dumps : List JABIA_Character
  /-- Whether `DestroyWindow(hwnd)` was called. -/
  destroyed : Bool
  /-- Whether `PostQuitMessage(0)` was called. -/
  quit : Bool

/-- How a sequence of statements ends. -/
inductive Outcome where
  /-- The statements ran to their end, leaving this state. -/
  | ok (s : DialogState)
  /-- The exception `std::out_of_range` left `jabia_characters.at`, in this state. -/
  | out_of_range (s : DialogState)
  /-- An array was indexed outside its bounds: the behaviour is undefined. -/
  | undefined

/-- Sequencing: the statements `k` run only when the ones before ran to their end. -/
def Outcome.andThen (o : Outcome) (k : DialogState → Outcome) : Outcome :=
  match o with
  | Outcome.ok s => k s
  | Outcome.out_of_range s => Outcome.out_of_range s
  | Outcome.undefined => Outcome.undefined

/-- The state the statements left when they ran to their end. -/
def Outcome.ok? : Outcome → Option DialogState
  | Outcome.ok s => some s
  | _ => none

/-- The state in which `std::out_of_range` was raised, when it was. -/
def Outcome.out_of_range? : Outcome → Option DialogState
  | Outcome.out_of_range s => some s
  | _ => none

/-- The statements `address = (uint32_t)jabia_characters.at(last_character_selected_index);
fillDialog(hwnd, address);` (lines 245 and 246, 255 and 256). -/
def at_fillDialog (ftoa : Nat → List Char) (s : DialogState) : Outcome :=
  match vector_at s.jabia_characters s.last_character_selected_index with
  | none => Outcome.out_of_range s
  | some address =>
    match fillDialog ftoa s.last_weaponslot_selected_index address (s.records address)
        s.hwnd with
    | none => Outcome.undefined
    | some filled => Outcome.ok { s with hwnd := filled }

/-- The statements under `case IDC_COMBO1:` (lines 240 to 248): a switch on
`HIWORD(wParam)` whose one case is `CBN_CLOSEUP`. -/
def case_IDC_COMBO1 (ftoa : Nat → List Char) (code : Nat) (s : DialogState) : Outcome :=
  if code = CBN_CLOSEUP then
    at_fillDialog ftoa { s with last_character_selected_index := s.comboControl1 }
  else Outcome.ok s

/-- The statements under `case IDC_COMBO2:` (lines 250 to 258): a switch on
`HIWORD(wParam)` whose one case is `CBN_CLOSEUP`. -/
def case_IDC_COMBO2 (ftoa : Nat → List Char) (code : Nat) (s : DialogState) : Outcome :=
  if code = CBN_CLOSEUP then
    at_fillDialog ftoa { s with last_weaponslot_selected_index := s.comboControl2 }
  else Outcome.ok s

/-- The statements under `case IDSET:` (lines 260 and 261). -/
def case_IDSET (atof : List Char → Nat) (maxName : Nat) (s : DialogState) : Outcome :=
  match vector_at s.jabia_characters s.last_character_selected_index with
  | none => Outcome.out_of_range s
  | some address =>
    match setCharacter atof maxName s.hwnd s.last_weaponslot_selected_index
        (s.records address) with
    | none => Outcome.undefined
    | some c => Outcome.ok { s with records := Function.update s.records address c }

/-- The function `dump_current_character` (lines 279 to 307): the record at `ptr` is copied
and handed to `dump_character` when `GetSaveFileName` succeeds. -/
def dump_current_character (ptr : Nat) (s : DialogState) : DialogState :=
  if s.GetSaveFileName then { s with dumps := s.records ptr :: s.dumps } else s

/-- The statements under `case IDM_DUMP_CHARACTER:` (lines 264 and 265). -/
def case_IDM_DUMP_CHARACTER (s : DialogState) : Outcome :=
  match vector_at s.jabia_characters s.last_character_selected_index with
  | none => Outcome.out_of_range s
  | some address => Outcome.ok (dump_current_character address s)

/-- The statements under `case IDCANCEL:` (lines 268 and 269). -/
def case_IDCANCEL (s : DialogState) : Outcome :=
  Outcome.ok { s with destroyed := true, quit := true }

/-- One `case` of a `switch`: its label, its statements, and whether they end in `break`. -/
structure SwitchCase where
  label : Command
  body : DialogState → Outcome
  endsWithBreak : Bool

/-- Execution of the cases of a `switch` from the first one of the list on: after the
statements of a case, control leaves the switch when they end in `break` and goes on into
the next case otherwise. -/
def runCases : List SwitchCase → DialogState → Outcome
  | [], s => Outcome.ok s
  | c :: rest, s =>
    (c.body s).andThen (fun s1 => if c.endsWithBreak then Outcome.ok s1 else runCases rest s1)

/-- A `switch` without a `default` label: execution starts at the first case whose label is
the value, and nothing runs when there is none. -/
def switch (cases : List SwitchCase) (value : Command) (s : DialogState) : Outcome :=
  runCases (cases.dropWhile (fun c => c.label != value)) s

/-- The cases of `switch(LOWORD(wParam))` (lines 238 to 271), in the order of the source;
`code` is `HIWORD(wParam)`. The cases `IDC_COMBO1` and `IDC_COMBO2` have no `break` after
their inner switch. -/
def WM_COMMAND_cases (atof : List Char → Nat) (ftoa : Nat → List Char) (maxName : Nat)
    (code : Nat) : List SwitchCase :=
  [ { label := Command.IDC_COMBO1, body := case_IDC_COMBO1 ftoa code, endsWithBreak := false },
    { label := Command.IDC_COMBO2, body := case_IDC_COMBO2 ftoa code, endsWithBreak := false },
    { label := Command.IDSET, body := case_IDSET atof maxName, endsWithBreak := true },
    { label := Command.IDM_DUMP_CHARACTER, body := case_IDM_DUMP_CHARACTER,
      endsWithBreak := true },
    { label := Command.IDCANCEL, body := case_IDCANCEL, endsWithBreak := true } ]

/-- The function `DialogProc` on a `WM_COMMAND` message (lines 236 to 272), with `id` for
`LOWORD(wParam)` and `code` for `HIWORD(wParam)`. -/
def DialogProc_WM_COMMAND (atof : List Char → Nat) (ftoa : Nat → List Char) (maxName : Nat)
    (id : Command) (code : Nat) (s : DialogState) : Outcome :=
  switch (WM_COMMAND_cases atof ftoa maxName code) id s

/-- The index `jabia_characters.at` is first called with while `DialogProc` handles the
command: the selection of the first combo box when that box closes up, the global
`last_character_selected_index` otherwise. -/
def lookupIndex (id : Command) (code : Nat) (s : DialogState) : Int :=
  if id = Command.IDC_COMBO1 ∧ code = CBN_CLOSEUP then s.comboControl1
  else s.last_character_selected_index

/-- A dialog state with one recorded character, the sample record at `0x2000`, and no
selection in the first combo box. -/
def sampleState : DialogState :=
  { jabia_characters := [0x2000],
    records := fun _ => sampleCharacter,
    last_character_selected_index := 0,
    last_weaponslot_selected_index := 0,
    hwnd := sampleDialog,
    comboControl1 := -1,
    comboControl2 := 0,
    GetSaveFileName := false,
    dumps := [],
    destroyed := false,
    quit := false }

end JABIA

namespace JABIA

/-! ## Helper lemmas on memory -/

theorem memRead_length (m : Mem) (p n : Nat) : (memRead m p n).length = n := by
  simp [memRead]

theorem memRead_getD (m : Mem) (p n i : Nat) (h : i < n) :
    (memRead m p n).getD i 0 = m (p + i) := by
  simp [memRead, List.getD_eq_getElem?_getD, h]

theorem memWrite_outside (m : Mem) (p : Nat) (bs : List Nat) (a : Nat)
    (h : a < p ∨ p + bs.length ≤ a) : memWrite m p bs a = m a := by
  unfold memWrite
  rw [if_neg]
  omega

theorem memWrite_inside (m : Mem) (p : Nat) (bs : List Nat) (i : Nat)
    (h : i < bs.length) : memWrite m p bs (p + i) = bs.getD i 0 := by
  unfold memWrite
  rw [if_pos (by omega)]
  congr 1
  omega

theorem JMP_length (v : Nat) : (JMP v).length = 6 := by
  simp [JMP, arrayCopy, JMP_INIT, dwordBytes]

theorem JMP_eq (v : Nat) :
    JMP v = [0xE9, v % 256, v / 256 % 256, v / 65536 % 256, v / 16777216 % 256, 0x90] := by
  simp [JMP, arrayCopy, JMP_INIT, dwordBytes]

/-! ## The install and restore steps -/

theorem sub32_lt (a b : Nat) : sub32 a b < 2 ^ 32 := by
  unfold sub32 DWORD_MOD
  omega

theorem JMPSize_int (t d : Nat) :
    (JMPSize d t : Int) = ((d : Int) - (t : Int) - 5) % 2 ^ 32 := by
  unfold JMPSize sub32 DWORD_MOD
  omega

theorem JMPSize_target (t d : Nat) (ht : t < 2 ^ 32) (hd : d < 2 ^ 32) :
    (t + 5 + JMPSize d t) % 2 ^ 32 = d := by
  unfold JMPSize sub32 DWORD_MOD
  omega

theorem bytesDword_dwordBytes (v : Nat) (hv : v < 2 ^ 32) : bytesDword (dwordBytes v) = v := by
  simp [bytesDword, dwordBytes]
  omega

theorem install_mem_inside (m : Mem) (t d i : Nat) (h : i < 6) :
    (install m t d).mem (t + i) = (JMP (JMPSize d t)).getD i 0 := by
  have hl : ((JMP (JMPSize d t)).take 6).length = 6 := by simp [JMP_length]
  simp only [install]
  rw [memWrite_inside m t _ i (by omega)]
  simp [List.getD_eq_getElem?_getD, List.getElem?_take, h]

theorem install_mem_outside (m : Mem) (t d a : Nat) (h : a < t ∨ t + 6 ≤ a) :
    (install m t d).mem a = m a := by
  have hl : ((JMP (JMPSize d t)).take 6).length = 6 := by simp [JMP_length]
  simp only [install]
  exact memWrite_outside m t _ a (by omega)

theorem restore_inside (m0 m : Mem) (t i : Nat) (h : i < 6) :
    restore m t (memRead m0 t 6) (t + i) = m0 (t + i) := by
  have hl : ((memRead m0 t 6).take 6).length = 6 := by simp [memRead_length]
  unfold restore
  rw [memWrite_inside m t _ i (by omega)]
  simp [List.getD_eq_getElem?_getD, List.getElem?_take, h, memRead]

theorem restore_outside (m0 m : Mem) (t a : Nat) (h : a < t ∨ t + 6 ≤ a) :
    restore m t (memRead m0 t 6) a = m a := by
  have hl : ((memRead m0 t 6).take 6).length = 6 := by simp [memRead_length]
  unfold restore
  exact memWrite_outside m t _ a (by omega)

/-- C1: for every memory state, module base and detour address, the install step of
`MyThread` followed directly by its restore step gives back the memory it started from,
at every address. -/
theorem C1_install_restore_roundtrip (m : Mem) (game_handle myCharacterConstRetrun : Nat) :
    restore (MyThread_install m game_handle myCharacterConstRetrun).mem
        (ParseCharacter game_handle)
        (MyThread_install m game_handle myCharacterConstRetrun).Before_JMP = m := by
  funext a
  have hb : (MyThread_install m game_handle myCharacterConstRetrun).Before_JMP
      = memRead m (ParseCharacter game_handle) 6 := rfl
  rw [hb]
  by_cases h : a < ParseCharacter game_handle ∨ ParseCharacter game_handle + 6 ≤ a
  · rw [restore_outside _ _ _ _ h]
    exact install_mem_outside m _ _ a h
  · obtain ⟨i, hi, rfl⟩ : ∃ i, i < 6 ∧ a = ParseCharacter game_handle + i :=
      ⟨a - ParseCharacter game_handle, by omega, by omega⟩
    exact restore_inside m _ _ i hi

theorem memRead_memWrite_sub (m : Mem) (p : Nat) (bs : List Nat) (k n : Nat)
    (h : k + n ≤ bs.length) :
    memRead (memWrite m p bs) (p + k) n = (bs.drop k).take n := by
  apply List.ext_getElem
  · simp [memRead]
    omega
  · intro i h1 h2
    simp only [memRead, List.length_map, List.length_range] at h1
    have hi : k + i < bs.length := by omega
    simp only [memRead, List.getElem_map, List.getElem_range, List.getElem_take,
      List.getElem_drop]
    rw [Nat.add_assoc, memWrite_inside m p bs (k + i) hi]
    simp [List.getD_eq_getElem?_getD, hi]

theorem memRead_memWrite (m : Mem) (p : Nat) (bs : List Nat) :
    memRead (memWrite m p bs) p bs.length = bs := by
  have h := memRead_memWrite_sub m p bs 0 bs.length (by omega)
  simpa using h

theorem JMPSize_lt (d t : Nat) : JMPSize d t < 2 ^ 32 := sub32_lt _ _

theorem install_bytes (m : Mem) (t d : Nat) :
    memRead (install m t d).mem t 6 = JMP (JMPSize d t) := by
  have h := memRead_memWrite m t ((JMP (JMPSize d t)).take 6)
  have hl : ((JMP (JMPSize d t)).take 6) = JMP (JMPSize d t) :=
    List.take_of_length_le (by rw [JMP_length])
  rw [hl, JMP_length] at h
  exact h

theorem install_displacement (m : Mem) (t d : Nat) :
    memRead (install m t d).mem (t + 1) 4 = dwordBytes (JMPSize d t) := by
  have hl : ((JMP (JMPSize d t)).take 6) = JMP (JMPSize d t) :=
    List.take_of_length_le (by rw [JMP_length])
  have h := memRead_memWrite_sub m t ((JMP (JMPSize d t)).take 6) 1 4
    (by rw [hl, JMP_length]; omega)
  rw [hl] at h
  have e : (install m t d).mem = memWrite m t ((JMP (JMPSize d t)).take 6) := rfl
  rw [e, hl, h]
  generalize JMPSize d t = v
  rw [JMP_eq]
  simp [dwordBytes]

/-- C2: for 32-bit addresses `t` (patched) and `d` (detour), the six bytes the install
step leaves at `t` are `0xE9`, the four little-endian bytes of `(d - t - 5) mod 2^32`, and
`0x90`; the displacement decodes back from those bytes and the jump lands on `d`. -/
theorem C2_jump_encoding (m : Mem) (t d : Nat) (ht : t < 2 ^ 32) (hd : d < 2 ^ 32) :
    (JMPSize d t : Int) = ((d : Int) - (t : Int) - 5) % 2 ^ 32 ∧
    memRead (install m t d).mem t 6 = [0xE9] ++ dwordBytes (JMPSize d t) ++ [0x90] ∧
    bytesDword (memRead (install m t d).mem (t + 1) 4) = JMPSize d t ∧
    (t + 5 + bytesDword (memRead (install m t d).mem (t + 1) 4)) % 2 ^ 32 = d := by
  refine ⟨JMPSize_int t d, ?_, ?_, ?_⟩
  · rw [install_bytes]
    generalize JMPSize d t = v
    rw [JMP_eq]
    simp [dwordBytes]
  · rw [install_displacement]
    exact bytesDword_dwordBytes _ (JMPSize_lt d t)
  · rw [install_displacement, bytesDword_dwordBytes _ (JMPSize_lt d t)]
    exact JMPSize_target t d ht hd

/-- Witness of C2: the game loaded at `0x400000`, the detour at `0x10001000`. -/
theorem C2_jump_encoding_witness :
    memRead (install zeroMem 0x532B58 0x10001000).mem 0x532B58 6
      = [0xE9, 0xA3, 0xE4, 0xAC, 0x0F, 0x90] ∧
    (0x532B58 + 5 + bytesDword (memRead (install zeroMem 0x532B58 0x10001000).mem
      (0x532B58 + 1) 4)) % 2 ^ 32 = 0x10001000 := by
  have h := C2_jump_encoding zeroMem 0x532B58 0x10001000 (by decide) (by decide)
  refine ⟨?_, h.2.2.2⟩
  rw [h.2.1]
  decide

theorem ParseCharacter_eq (game_handle : Nat) :
    ParseCharacter game_handle = (game_handle + 0x132B58) % 2 ^ 32 := by
  unfold ParseCharacter add32 toDWORD DWORD_MOD CHARACTER_CONST_OFFSET
    CHARACTER_CONST_RETN_OFFSET
  omega

theorem install_mem_eq (m : Mem) (t d a : Nat) :
    (install m t d).mem a
      = if t ≤ a ∧ a < t + 6 then (JMP (JMPSize d t)).getD (a - t) 0 else m a := by
  by_cases h : t ≤ a ∧ a < t + 6
  · rw [if_pos h]
    obtain ⟨i, hi, rfl⟩ : ∃ i, i < 6 ∧ a = t + i := ⟨a - t, by omega, by omega⟩
    rw [install_mem_inside m t d i hi]
    congr 1
    omega
  · rw [if_neg h]
    exact install_mem_outside m t d a (by omega)

/-- C4 (as stated, refuted): with the game loaded at `0x400000` the address held in
`ParseCharacter` is `0x532B58`, not `0x400000 + 0x132880 = 0x532880`; the byte at
`0x532880` is left as it was and the jump opcode `0xE9` is written at `0x532B58`. -/
theorem C4_counterexample :
    ParseCharacter 0x400000 = 0x532B58 ∧
    ParseCharacter 0x400000 ≠ (0x400000 + 0x132880) % 2 ^ 32 ∧
    (MyThread_install zeroMem 0x400000 0x10001000).mem ((0x400000 + 0x132880) % 2 ^ 32)
      = zeroMem ((0x400000 + 0x132880) % 2 ^ 32) ∧
    (MyThread_install zeroMem 0x400000 0x10001000).mem 0x532B58 = 0xE9 := by
  have hp : ParseCharacter 0x400000 = 0x532B58 := by decide
  refine ⟨hp, by decide, ?_, ?_⟩
  · unfold MyThread_install
    rw [hp, install_mem_eq]
    decide
  · unfold MyThread_install
    rw [hp, install_mem_eq]
    decide

/-- C4 (amended): for every module base `b`, the address at which `MyThread` saves bytes
and installs its jump is `b + 0x132880 + 0x2D8 = b + 0x132B58` (mod `2^32`), the return
of the character constructor: the six bytes saved come from there, the jump is written
there, and no byte outside those six changes. -/
theorem C4_patched_address (m : Mem) (b d a : Nat) :
    ParseCharacter b = (b + CHARACTER_CONST_OFFSET + CHARACTER_CONST_RETN_OFFSET) % 2 ^ 32 ∧
    ParseCharacter b = (b + 0x132B58) % 2 ^ 32 ∧
    (MyThread_install m b d).Before_JMP = memRead m ((b + 0x132B58) % 2 ^ 32) 6 ∧
    memRead (MyThread_install m b d).mem ((b + 0x132B58) % 2 ^ 32) 6
      = JMP (JMPSize d ((b + 0x132B58) % 2 ^ 32)) ∧
    (MyThread_install m b d).mem a
      = if (b + 0x132B58) % 2 ^ 32 ≤ a ∧ a < (b + 0x132B58) % 2 ^ 32 + 6
        then (JMP (JMPSize d ((b + 0x132B58) % 2 ^ 32))).getD (a - (b + 0x132B58) % 2 ^ 32) 0
        else m a := by
  have hp := ParseCharacter_eq b
  refine ⟨?_, hp, ?_, ?_, ?_⟩
  · rw [hp]
    unfold CHARACTER_CONST_OFFSET CHARACTER_CONST_RETN_OFFSET
    omega
  · rw [← hp]
    rfl
  · rw [← hp]
    exact install_bytes m _ d
  · rw [← hp]
    exact install_mem_eq m _ d a

/-- C5 (as stated, refuted): on zeroed memory with the game at `0x400000`, the install
step saves six bytes and the byte at offset 5 from the patched address changes from `0`
to `0x90`. -/
theorem C5_counterexample :
    (MyThread_install zeroMem 0x400000 0x10001000).Before_JMP.length = 6 ∧
    zeroMem (ParseCharacter 0x400000 + 5) = 0 ∧
    (MyThread_install zeroMem 0x400000 0x10001000).mem (ParseCharacter 0x400000 + 5) = 0x90 := by
  have hp : ParseCharacter 0x400000 = 0x532B58 := by decide
  refine ⟨memRead_length _ _ _, rfl, ?_⟩
  unfold MyThread_install
  rw [hp, install_mem_eq]
  decide

/-- C5 (amended): the install step copies exactly 6 bytes: it saves the 6 bytes at the
patched address, and overwrites those 6 bytes with `0xE9`, the four displacement bytes and
`0x90`; the byte at offset 5 becomes `0x90`, and every byte at offset 6 or more, and every
byte below the patched address, keeps its value, for every memory state. -/
theorem C5_patch_size (m : Mem) (b d a : Nat) :
    (MyThread_install m b d).Before_JMP.length = 6 ∧
    (MyThread_install m b d).Before_JMP = memRead m (ParseCharacter b) 6 ∧
    (JMP (JMPSize d (ParseCharacter b))).length = 6 ∧
    (MyThread_install m b d).mem (ParseCharacter b + 5) = 0x90 ∧
    (MyThread_install m b d).mem a
      = if ParseCharacter b ≤ a ∧ a < ParseCharacter b + 6
        then (JMP (JMPSize d (ParseCharacter b))).getD (a - ParseCharacter b) 0
        else m a := by
  refine ⟨memRead_length _ _ _, rfl, JMP_length _, ?_, install_mem_eq m _ d a⟩
  unfold MyThread_install
  rw [install_mem_inside m _ d 5 (by omega)]
  generalize JMPSize d (ParseCharacter b) = v
  rw [JMP_eq]
  rfl

/-! ## The polling loop -/

theorem pollLoop_exit_ne (m : Mem) (polls : List Poll) :
    (pollLoop m polls).exit ≠ some Exit.freeLibraryAndExitThread := by
  induction polls generalizing m with
  | nil => simp [pollLoop]
  | cons p rest ih =>
    unfold pollLoop
    simp only
    split
    · split
      · simp
      · split
        · simp
        · split
          · simp
          · simp
          · exact ih _
    · split
      · simp
      · exact ih _

theorem pollLoop_cons_cases (m : Mem) (p : Poll) (rest : List Poll) :
    ((pollLoop m (p :: rest)).exit = (pollLoop (p.env m) rest).exit ∧
      (pollLoop m (p :: rest)).mem = (pollLoop (p.env m) rest).mem ∧
      (pollLoop m (p :: rest)).iterations = (pollLoop (p.env m) rest).iterations + 1 ∧
      (p.f7 = true ∨ p.f8 = false)) ∨
    ((pollLoop m (p :: rest)).exit = none ∧ (pollLoop m (p :: rest)).mem = p.env m ∧
      (pollLoop m (p :: rest)).iterations = 1 ∧ p.f7 = false ∧ p.f8 = true) ∨
    (∃ e, (pollLoop m (p :: rest)).exit = some e) := by
  simp only [pollLoop]
  split
  · rename_i h7
    split
    · exact Or.inr (Or.inr ⟨_, rfl⟩)
    · split
      · exact Or.inr (Or.inr ⟨_, rfl⟩)
      · split
        · exact Or.inr (Or.inr ⟨_, rfl⟩)
        · exact Or.inr (Or.inr ⟨_, rfl⟩)
        · exact Or.inl ⟨rfl, rfl, rfl, Or.inl h7⟩
  · rename_i h7
    split
    · rename_i h8
      exact Or.inr (Or.inl ⟨rfl, rfl, rfl, by simpa using h7, h8⟩)
    · rename_i h8
      exact Or.inl ⟨rfl, rfl, rfl, Or.inr (by simpa using h8)⟩

theorem pollLoop_break (m : Mem) (polls : List Poll) (h : (pollLoop m polls).exit = none) :
    1 ≤ (pollLoop m polls).iterations ∧
    ∃ p, polls.get? ((pollLoop m polls).iterations - 1) = some p ∧
      p.f7 = false ∧ p.f8 = true ∧
      ∀ j q, j < (pollLoop m polls).iterations - 1 → polls.get? j = some q →
        (q.f7 = true ∨ q.f8 = false) := by
  induction polls generalizing m with
  | nil => simp [pollLoop] at h
  | cons p rest ih =>
    rcases pollLoop_cons_cases m p rest with ⟨he, _, hi, hp⟩ | ⟨_, _, hi, h7, h8⟩ | ⟨e, he⟩
    · rw [he] at h
      obtain ⟨h1, q, hq, hq7, hq8, hall⟩ := ih _ h
      rw [hi]
      refine ⟨by omega, q, ?_, hq7, hq8, ?_⟩
      · rw [← hq]
        have e : (pollLoop (p.env m) rest).iterations + 1 - 1
            = ((pollLoop (p.env m) rest).iterations - 1) + 1 := by omega
        rw [e]
        rfl
      · intro j r hj hr
        cases j with
        | zero =>
          simp only [List.get?_cons_zero, Option.some.injEq] at hr
          subst hr
          exact hp
        | succ j =>
          simp only [List.get?_cons_succ] at hr
          exact hall j r (by omega) hr
    · rw [hi]
      refine ⟨by omega, p, rfl, h7, h8, ?_⟩
      intro j q hj
      omega
    · rw [he] at h
      simp at h

theorem MyThread_unload_iff (m : Mem) (b d : Nat) (polls : List Poll) :
    (MyThread m b d polls).exit = Exit.freeLibraryAndExitThread ↔
      (pollLoop (install m (ParseCharacter b) d).mem polls).exit = none := by
  unfold MyThread
  simp only
  cases he : (pollLoop (install m (ParseCharacter b) d).mem polls).exit with
  | none => simp
  | some e =>
    simp only [reduceCtorEq, iff_false]
    intro h
    exact pollLoop_exit_ne _ _ (he.trans (congrArg some h))

theorem MyThread_unloaded (m : Mem) (b d : Nat) (polls : List Poll)
    (h : (pollLoop (install m (ParseCharacter b) d).mem polls).exit = none) :
    MyThread m b d polls =
      { exit := Exit.freeLibraryAndExitThread,
        mem := restore (pollLoop (install m (ParseCharacter b) d).mem polls).mem
          (ParseCharacter b) (memRead m (ParseCharacter b) 6),
        memcpys := [(ParseCharacter b, JMP (JMPSize d (ParseCharacter b))),
          (ParseCharacter b, memRead m (ParseCharacter b) 6)],
        iterations := (pollLoop (install m (ParseCharacter b) d).mem polls).iterations } := by
  have hl : ((JMP (JMPSize d (ParseCharacter b))).take 6) = JMP (JMPSize d (ParseCharacter b)) :=
    List.take_of_length_le (by rw [JMP_length])
  have hr : (memRead m (ParseCharacter b) 6).take 6 = memRead m (ParseCharacter b) 6 :=
    List.take_of_length_le (by rw [memRead_length])
  have hb : (install m (ParseCharacter b) d).Before_JMP = memRead m (ParseCharacter b) 6 := rfl
  unfold MyThread
  simp only
  rw [h]
  simp only [hl, hb, hr]

theorem restore_read (m0 m : Mem) (t : Nat) :
    memRead (restore m t (memRead m0 t 6)) t 6 = memRead m0 t 6 := by
  have hr : (memRead m0 t 6).take 6 = memRead m0 t 6 :=
    List.take_of_length_le (by rw [memRead_length])
  have h := memRead_memWrite m t (memRead m0 t 6)
  rw [memRead_length] at h
  unfold restore
  rw [hr]
  exact h

/-- C3: on every execution of `MyThread` that reaches `FreeLibraryAndExitThread`, the
thread has, after its patch, copied the six bytes saved before patching back to the
patched address (this is its last write, and the six bytes there hold their values from
before the install whatever was written to memory during the loop), and the loop was left
on an iteration that reported F7 not pressed and F8 pressed, every earlier iteration having
reported F7 pressed or F8 not pressed. -/
theorem C3_restore_on_unload (m : Mem) (b d : Nat) (polls : List Poll)
    (h : (MyThread m b d polls).exit = Exit.freeLibraryAndExitThread) :
    (MyThread m b d polls).memcpys
      = [(ParseCharacter b, JMP (JMPSize d (ParseCharacter b))),
         (ParseCharacter b, memRead m (ParseCharacter b) 6)] ∧
    memRead (MyThread m b d polls).mem (ParseCharacter b) 6 = memRead m (ParseCharacter b) 6 ∧
    1 ≤ (MyThread m b d polls).iterations ∧
    ∃ p, polls.get? ((MyThread m b d polls).iterations - 1) = some p ∧
      p.f7 = false ∧ p.f8 = true ∧
      ∀ j q, j < (MyThread m b d polls).iterations - 1 → polls.get? j = some q →
        (q.f7 = true ∨ q.f8 = false) := by
  have hb := (MyThread_unload_iff m b d polls).mp h
  rw [MyThread_unloaded m b d polls hb]
  dsimp only
  refine ⟨Eq.refl _, ?_, ?_⟩
  · exact restore_read m _ (ParseCharacter b)
  · exact pollLoop_break _ polls hb

/-- Witness of C3: the sample environment reaches `FreeLibraryAndExitThread` on its third
iteration, with the six patched bytes back to their initial values. -/
theorem C3_restore_on_unload_witness :
    (MyThread zeroMem 0x400000 0x10001000 samplePolls).exit = Exit.freeLibraryAndExitThread ∧
    (MyThread zeroMem 0x400000 0x10001000 samplePolls).iterations = 3 ∧
    memRead (MyThread zeroMem 0x400000 0x10001000 samplePolls).mem (ParseCharacter 0x400000) 6
      = memRead zeroMem (ParseCharacter 0x400000) 6 :=
  ⟨by decide, by decide,
    (C3_restore_on_unload zeroMem 0x400000 0x10001000 samplePolls (by decide)).2.1⟩

/-! ## Recording characters -/

theorem recordCalls_eq (frame : Nat) (cs : List Nat) (calls : List (Nat × Cpu)) :
    recordCalls frame cs calls
      = cs ++ calls.map (fun c => character_ptr frame c.2) := by
  induction calls generalizing cs with
  | nil => simp [recordCalls]
  | cons c rest ih =>
    obtain ⟨eaxOut, s⟩ := c
    simp only [recordCalls, List.map_cons]
    rw [ih]
    simp [recordCharacters, character_ptr]

/-- C6: starting from the vector as cleared by `MyThread`, after any sequence of `n` calls
of `recordCharacters` the vector has exactly `n` entries, the `i`-th being the pointer
captured by the `i`-th call; one call appends its captured pointer at the end of the
vector and keeps the earlier entries as they were, in order. -/
theorem C6_character_recording (frame : Nat) (old : List Nat) (calls : List (Nat × Cpu))
    (eaxOut : Nat) (s : Cpu) (i : Nat) :
    (recordCalls frame (jabia_characters_clear old) calls).length = calls.length ∧
    (recordCalls frame (jabia_characters_clear old) calls).get? i
      = (calls.get? i).map (fun c => character_ptr frame c.2) ∧
    (recordCharacters frame eaxOut s).jabia_characters
      = s.jabia_characters ++ [character_ptr frame s] ∧
    (recordCharacters frame eaxOut s).jabia_characters.length = s.jabia_characters.length + 1 ∧
    ((recordCharacters frame eaxOut s).jabia_characters.take s.jabia_characters.length
      = s.jabia_characters) := by
  rw [recordCalls_eq]
  refine ⟨by simp [jabia_characters_clear], by simp [jabia_characters_clear], rfl, ?_, ?_⟩
  · simp [recordCharacters]
  · simp [recordCharacters]

/-! ## The detour -/

theorem push_eax (v : Nat) (s : Cpu) : (push v s).eax = s.eax := by
  unfold push; rfl

/-- C10: for all arguments `(u1, u2)`, `myCameraCallback` returns the value the function
behind `CameraCallback` (the original camera callback) returns for the same `ecx`, `u1`,
`u2` and game state, leaves the game in the state that function leaves it in, and changes
the globals of the patcher only by storing `ecx` in `camera_ptr`. -/
theorem C10_camera_hook_transparency {G : Type} (code : Nat → Nat → Nat → Int → G → Int × G)
    (ecx u1 : Nat) (u2 : Int) (globals : CameraGlobals) (game : G) :
    (myCameraCallback code ecx u1 u2 globals game).1
      = (code globals.CameraCallback ecx u1 u2 game).1 ∧
    (myCameraCallback code ecx u1 u2 globals game).2.2
      = (code globals.CameraCallback ecx u1 u2 game).2 ∧
    (myCameraCallback code ecx u1 u2 globals game).2.1
      = { globals with camera_ptr := ecx } ∧
    (myCameraCallback code ecx u1 u2 globals game).2.1.camera_ptr = ecx ∧
    (myCameraCallback code ecx u1 u2 globals game).2.1.CameraCallback
      = globals.CameraCallback ∧
    (myCameraCallback code ecx u1 u2 globals game).2.1.game_handle = globals.game_handle ∧
    (myCameraCallback code ecx u1 u2 globals game).2.1.g_threadID = globals.g_threadID ∧
    (myCameraCallback code ecx u1 u2 globals game).2.1.g_hModule = globals.g_hModule :=
  ⟨rfl, rfl, rfl, rfl, rfl, rfl, rfl, rfl⟩

/-! ## `setCharacter` -/

theorem assign_member (c : JABIA_Character) (m : Member) (v : Nat) (k : Member) :
    (c.assign m v).member k = if k = m then v else c.member k := by
  unfold JABIA_Character.assign; rfl

theorem assignName_member (c : JABIA_Character) (bytes : List Char) (k : Member) :
    (c.assignName bytes).member k = c.member k := by
  unfold JABIA_Character.assignName; rfl

theorem assignNameLength_member (c : JABIA_Character) (k : Member) :
    (c.assignNameLength).member k
      = if k = Member.name_length then toDWORD (strlen c.merc_name) else c.member k := by
  unfold JABIA_Character.assignNameLength; exact assign_member _ _ _ _

theorem assignSlot_member (c : JABIA_Character) (i : Nat)
    (f : JABIA_Character_weapon → JABIA_Character_weapon) (k : Member) :
    (c.assignSlot i f).member k = c.member k := by
  unfold JABIA_Character.assignSlot; rfl

theorem assign_merc_name (c : JABIA_Character) (m : Member) (v : Nat) :
    (c.assign m v).merc_name = c.merc_name := by
  unfold JABIA_Character.assign; rfl

theorem assignName_merc_name (c : JABIA_Character) (bytes : List Char) :
    (c.assignName bytes).merc_name = bytes := by
  unfold JABIA_Character.assignName; rfl

theorem GetDlgItemText_100 (hwnd : Dialog) (id : Ctl) :
    GetDlgItemText hwnd id 100 = (hwnd id).take 99 := by
  unfold GetDlgItemText; rfl

set_option maxRecDepth 100000 in
/-- C8 (as stated, refuted): with 99 zeros followed by 7 in the level control,
`setCharacter` sets `level` to 0, while `atoi` of the text of the control is 7. -/
theorem C8_counterexample :
    (setCharacter atofZero 16 longLevelDialog 0 sampleCharacter).map
        (fun c => c.member Member.level) = some 0 ∧
    toUint32 (atoi (longLevelDialog Ctl.IDC_LEV)) = 7 := by
  decide

theorem setCharacter_some (atof : List Char → Nat) (maxName : Nat) (hwnd : Dialog) (slot : Int)
    (character : JABIA_Character)
    (h : 0 ≤ slot ∧ slot.toNat < character.weapons.length) :
    ∃ c, setCharacter atof maxName hwnd slot character = some c := by
  unfold setCharacter
  rw [if_pos h]
  exact ⟨_, rfl⟩

theorem setCharacter_member (atof : List Char → Nat) (maxName : Nat) (hwnd : Dialog)
    (slot : Int) (character c : JABIA_Character)
    (h : setCharacter atof maxName hwnd slot character = some c) (k : Member) :
    c.member k =
      if k = Member.mechanical then toUint32 (atoi ((hwnd Ctl.IDC_MECH).take 99))
      else if k = Member.stealth then toUint32 (atoi ((hwnd Ctl.IDC_STEALTH).take 99))
      else if k = Member.marksmanship then toUint32 (atoi ((hwnd Ctl.IDC_MARK).take 99))
      else if k = Member.explosives then toUint32 (atoi ((hwnd Ctl.IDC_EXPL).take 99))
      else if k = Member.medical then toUint32 (atoi ((hwnd Ctl.IDC_MED).take 99))
      else if k = Member.perception then toUint32 (atoi ((hwnd Ctl.IDC_PER).take 99))
      else if k = Member.intelligence then toUint32 (atoi ((hwnd Ctl.IDC_INT).take 99))
      else if k = Member.strength then toUint32 (atoi ((hwnd Ctl.IDC_STR).take 99))
      else if k = Member.dexterity then toUint32 (atoi ((hwnd Ctl.IDC_DEX).take 99))
      else if k = Member.agility then toUint32 (atoi ((hwnd Ctl.IDC_AG).take 99))
      else if k = Member.medical_condition then
        toUint32 (atoi ((hwnd Ctl.IDC_MED_COND).take 99))
      else if k = Member.faction then toUint32 (atoi ((hwnd Ctl.IDC_MERC_FAC).take 99))
      else if k = Member.stamina then atof ((hwnd Ctl.IDC_STAMINA).take 99)
      else if k = Member.health then atof ((hwnd Ctl.IDC_HLTH).take 99)
      else if k = Member.name_length then toDWORD (strlen (nameBuffer hwnd maxName))
      else if k = Member.weapon_attachment_status then 1
      else if k = Member.weapon_attachment_removable then
        toUint16 (atoi ((hwnd Ctl.IDC_WPN_MOD).take 99))
      else if k = Member.ammo_equiped_count then
        toUint16 (atoi ((hwnd Ctl.IDC_AMMO_EQ_CNT).take 99))
      else if k = Member.ammo_equiped then toUint16 (atoi ((hwnd Ctl.IDC_AMMO_EQ).take 99))
      else if k = Member.pants_equiped_durability then
        toUint16 (atoi ((hwnd Ctl.IDC_PANTS_DUR).take 99))
      else if k = Member.pants_equiped then toUint16 (atoi ((hwnd Ctl.IDC_PANTS_EQ).take 99))
      else if k = Member.vest_equiped_durability then
        toUint16 (atoi ((hwnd Ctl.IDC_SHOES_DUR).take 99))
      else if k = Member.shoes_equiped then toUint16 (atoi ((hwnd Ctl.IDC_SHOES_EQ).take 99))
      else if k = Member.vest_equiped then toUint16 (atoi ((hwnd Ctl.IDC_VEST_EQ).take 99))
      else if k = Member.shirt_equiped_durability then
        toUint16 (atoi ((hwnd Ctl.IDC_SHRT_EQ_DUR).take 99))
      else if k = Member.shirt_equiped then toUint16 (atoi ((hwnd Ctl.IDC_SHRT_EQ).take 99))
      else if k = Member.special_equiped_charges then
        toUint16 (atoi ((hwnd Ctl.IDC_SPC_EQ_LEFT).take 99))
      else if k = Member.special_equiped then toUint16 (atoi ((hwnd Ctl.IDC_SPC_EQ).take 99))
      else if k = Member.eyewear_equiped_durability then
        toUint16 (atoi ((hwnd Ctl.IDC_EYE_EQ_DUR).take 99))
      else if k = Member.eyewear_equiped then toUint16 (atoi ((hwnd Ctl.IDC_EYE_EQ).take 99))
      else if k = Member.helmet_equiped_durability then
        toUint16 (atoi ((hwnd Ctl.IDC_HELM_EQ_DUR).take 99))
      else if k = Member.helmet_equiped then toUint16 (atoi ((hwnd Ctl.IDC_HELM_EQ).take 99))
      else if k = Member.weapon_in_hand_durability then
        toUint16 (atoi ((hwnd Ctl.IDC_WPN_EQ_DUR).take 99))
      else if k = Member.weapon_in_hand_removable then 1
      else if k = Member.weapon_in_hand then toUint16 (atoi ((hwnd Ctl.IDC_WPN_EQ).take 99))
      else if k = Member.training_points then toUint32 (atoi ((hwnd Ctl.IDC_TP).take 99))
      else if k = Member.experience then toUint32 (atoi ((hwnd Ctl.IDC_EX).take 99))
      else if k = Member.level then toUint32 (atoi ((hwnd Ctl.IDC_LEV).take 99))
      else character.member k := by
  unfold setCharacter at h
  split at h
  · simp only [Option.some.injEq] at h
    subst h
    cases k <;>
      simp only [assign_member, assignName_member, assignNameLength_member, assignSlot_member,
        GetDlgItemText_100, assign_merc_name, assignName_merc_name, reduceCtorEq, if_true,
        if_false]
  · simp at h

/-- C8 (amended): for every dialog state and every character record (with the selected
weapon slot inside the array), after `setCharacter` each of the fifteen 32-bit members
equals `atoi` of the first 99 characters of the text of its own control, reduced mod
`2^32`, and each of the seventeen 16-bit members listed equals `atoi` of the first 99
characters of the text of its own control, reduced mod `2^16`. -/
theorem C8_set_fields (atof : List Char → Nat) (maxName : Nat) (hwnd : Dialog) (slot : Int)
    (character : JABIA_Character)
    (h : 0 ≤ slot ∧ slot.toNat < character.weapons.length) :
    ∃ c, setCharacter atof maxName hwnd slot character = some c ∧
      c.member Member.level = toUint32 (atoi ((hwnd Ctl.IDC_LEV).take 99)) ∧
      c.member Member.experience = toUint32 (atoi ((hwnd Ctl.IDC_EX).take 99)) ∧
      c.member Member.training_points = toUint32 (atoi ((hwnd Ctl.IDC_TP).take 99)) ∧
      c.member Member.faction = toUint32 (atoi ((hwnd Ctl.IDC_MERC_FAC).take 99)) ∧
      c.member Member.medical_condition = toUint32 (atoi ((hwnd Ctl.IDC_MED_COND).take 99)) ∧
      c.member Member.agility = toUint32 (atoi ((hwnd Ctl.IDC_AG).take 99)) ∧
      c.member Member.dexterity = toUint32 (atoi ((hwnd Ctl.IDC_DEX).take 99)) ∧
      c.member Member.strength = toUint32 (atoi ((hwnd Ctl.IDC_STR).take 99)) ∧
      c.member Member.intelligence = toUint32 (atoi ((hwnd Ctl.IDC_INT).take 99)) ∧
      c.member Member.perception = toUint32 (atoi ((hwnd Ctl.IDC_PER).take 99)) ∧
      c.member Member.medical = toUint32 (atoi ((hwnd Ctl.IDC_MED).take 99)) ∧
      c.member Member.explosives = toUint32 (atoi ((hwnd Ctl.IDC_EXPL).take 99)) ∧
      c.member Member.marksmanship = toUint32 (atoi ((hwnd Ctl.IDC_MARK).take 99)) ∧
      c.member Member.stealth = toUint32 (atoi ((hwnd Ctl.IDC_STEALTH).take 99)) ∧
      c.member Member.mechanical = toUint32 (atoi ((hwnd Ctl.IDC_MECH).take 99)) ∧
      c.member Member.weapon_in_hand = toUint16 (atoi ((hwnd Ctl.IDC_WPN_EQ).take 99)) ∧
      c.member Member.weapon_in_hand_durability = toUint16 (atoi ((hwnd Ctl.IDC_WPN_EQ_DUR).take 99)) ∧
      c.member Member.helmet_equiped = toUint16 (atoi ((hwnd Ctl.IDC_HELM_EQ).take 99)) ∧
      c.member Member.helmet_equiped_durability = toUint16 (atoi ((hwnd Ctl.IDC_HELM_EQ_DUR).take 99)) ∧
      c.member Member.eyewear_equiped = toUint16 (atoi ((hwnd Ctl.IDC_EYE_EQ).take 99)) ∧
      c.member Member.eyewear_equiped_durability = toUint16 (atoi ((hwnd Ctl.IDC_EYE_EQ_DUR).take 99)) ∧
      c.member Member.special_equiped = toUint16 (atoi ((hwnd Ctl.IDC_SPC_EQ).take 99)) ∧
      c.member Member.special_equiped_charges = toUint16 (atoi ((hwnd Ctl.IDC_SPC_EQ_LEFT).take 99)) ∧
      c.member Member.shirt_equiped = toUint16 (atoi ((hwnd Ctl.IDC_SHRT_EQ).take 99)) ∧
      c.member Member.shirt_equiped_durability = toUint16 (atoi ((hwnd Ctl.IDC_SHRT_EQ_DUR).take 99)) ∧
      c.member Member.vest_equiped = toUint16 (atoi ((hwnd Ctl.IDC_VEST_EQ).take 99)) ∧
      c.member Member.shoes_equiped = toUint16 (atoi ((hwnd Ctl.IDC_SHOES_EQ).take 99)) ∧
      c.member Member.pants_equiped = toUint16 (atoi ((hwnd Ctl.IDC_PANTS_EQ).take 99)) ∧
      c.member Member.pants_equiped_durability = toUint16 (atoi ((hwnd Ctl.IDC_PANTS_DUR).take 99)) ∧
      c.member Member.ammo_equiped = toUint16 (atoi ((hwnd Ctl.IDC_AMMO_EQ).take 99)) ∧
      c.member Member.ammo_equiped_count = toUint16 (atoi ((hwnd Ctl.IDC_AMMO_EQ_CNT).take 99)) ∧
      c.member Member.weapon_attachment_removable = toUint16 (atoi ((hwnd Ctl.IDC_WPN_MOD).take 99)) := by
  obtain ⟨c, hc⟩ := setCharacter_some atof maxName hwnd slot character h
  have hm := setCharacter_member atof maxName hwnd slot character c hc
  refine ⟨c, hc, ?_, ?_, ?_, ?_, ?_, ?_, ?_, ?_, ?_, ?_, ?_, ?_, ?_, ?_, ?_, ?_, ?_, ?_, ?_, ?_, ?_, ?_, ?_, ?_, ?_, ?_, ?_, ?_, ?_, ?_, ?_, ?_⟩
  all_goals (rw [hm]; rfl)

/-- Witness of C8: the sample dialog applied to the sample record gives level 12. -/
theorem C8_set_fields_witness :
    ∃ c, setCharacter atofZero 16 sampleDialog 0 sampleCharacter = some c ∧
      c.member Member.level = 12 := by
  obtain ⟨c, hc, hl, _⟩ :=
    C8_set_fields atofZero 16 sampleDialog 0 sampleCharacter (by decide)
  exact ⟨c, hc, hl.trans (by decide)⟩

/-- C9 (the code at the failing input): the record has vest durability 20 and shoes
durability 10, the dialog holds 50 in `IDC_VEST_DUR` and 70 in `IDC_SHOES_DUR`; after
`setCharacter` the shoes durability is still 10 (not 70) and the vest durability is 70
(not 50). -/
theorem C9_shoes_vest_durability_failing_input :
    (setCharacter atofZero 16 sampleDialog 0 sampleCharacter).map
        (fun c => c.member Member.shoes_equiped_durability) = some 10 ∧
    (setCharacter atofZero 16 sampleDialog 0 sampleCharacter).map
        (fun c => c.member Member.vest_equiped_durability) = some 70 ∧
    toUint16 (atoi (GetDlgItemText sampleDialog Ctl.IDC_SHOES_DUR 100)) = 70 ∧
    toUint16 (atoi (GetDlgItemText sampleDialog Ctl.IDC_VEST_DUR 100)) = 50 := by
  decide

/-! ## Decimal printing and parsing -/

theorem digitChar_facts (d : Nat) (h : d < 10) :
    isdigit (Nat.digitChar d) = true ∧ (Nat.digitChar d).toNat - 48 = d ∧
    isspace (Nat.digitChar d) = false ∧ Nat.digitChar d ≠ '-' ∧ Nat.digitChar d ≠ '+' := by
  interval_cases d <;> decide

theorem toDigitsCore_succ (fuel n : Nat) (ds : List Char) :
    Nat.toDigitsCore 10 (fuel + 1) n ds
      = if n / 10 = 0 then Nat.digitChar (n % 10) :: ds
        else Nat.toDigitsCore 10 fuel (n / 10) (Nat.digitChar (n % 10) :: ds) := by
  simp only [Nat.toDigitsCore]

theorem digitsValue_digitChar (acc d : Nat) (h : d < 10) (ds : List Char) :
    digitsValue acc (Nat.digitChar d :: ds) = digitsValue (10 * acc + d) ds := by
  obtain ⟨h1, h2, _⟩ := digitChar_facts d h
  simp only [digitsValue, h1, h2, if_true]

theorem toDigitsCore_value (fuel : Nat) :
    ∀ n, n < fuel → ∃ k, ∀ acc ds,
      digitsValue acc (Nat.toDigitsCore 10 fuel n ds) = digitsValue (acc * 10 ^ k + n) ds := by
  induction fuel with
  | zero => intro n h; omega
  | succ fuel ih =>
    intro n hn
    by_cases h0 : n / 10 = 0
    · refine ⟨1, fun acc ds => ?_⟩
      rw [toDigitsCore_succ, if_pos h0, digitsValue_digitChar acc _ (Nat.mod_lt n (by omega))]
      congr 1
      omega
    · obtain ⟨k, hk⟩ := ih (n / 10) (by omega)
      refine ⟨k + 1, fun acc ds => ?_⟩
      rw [toDigitsCore_succ, if_neg h0, hk,
        digitsValue_digitChar _ _ (Nat.mod_lt n (by omega))]
      congr 1
      have e : acc * 10 ^ (k + 1) = 10 * (acc * 10 ^ k) := by ring
      rw [e]
      omega

theorem toDigits_value (n : Nat) : digitsValue 0 (Nat.toDigits 10 n) = n := by
  obtain ⟨k, hk⟩ := toDigitsCore_value (n + 1) n (by omega)
  have h := hk 0 []
  simp only [Nat.zero_mul, Nat.zero_add, digitsValue] at h
  exact h

theorem toDigitsCore_head (fuel : Nat) :
    ∀ n ds, ∃ d rest, d < 10 ∧ Nat.toDigitsCore 10 (fuel + 1) n ds = Nat.digitChar d :: rest := by
  induction fuel with
  | zero =>
    intro n ds
    refine ⟨n % 10, ds, Nat.mod_lt n (by omega), ?_⟩
    rw [toDigitsCore_succ]
    split
    · rfl
    · simp only [Nat.toDigitsCore]
  | succ fuel ih =>
    intro n ds
    rw [toDigitsCore_succ]
    split
    · exact ⟨n % 10, ds, Nat.mod_lt n (by omega), rfl⟩
    · exact ih _ _

theorem toDigitsCore_length (fuel : Nat) :
    ∀ n ds k, 1 ≤ k → n < 10 ^ k →
      (Nat.toDigitsCore 10 fuel n ds).length ≤ k + ds.length := by
  induction fuel with
  | zero => intro n ds k _ _; simp only [Nat.toDigitsCore]; omega
  | succ fuel ih =>
    intro n ds k hk hn
    rw [toDigitsCore_succ]
    split
    · simp only [List.length_cons]; omega
    · rename_i h0
      have hk2 : 2 ≤ k := by
        by_contra hlt
        have : k = 1 := by omega
        subst this
        have : n / 10 = 0 := Nat.div_eq_of_lt (by simpa using hn)
        exact h0 this
      have hdiv : n / 10 < 10 ^ (k - 1) := by
        have e : 10 ^ k = 10 ^ (k - 1) * 10 := by
          rw [← pow_succ]; congr 1; omega
        rw [e] at hn
        exact Nat.div_lt_of_lt_mul (by rwa [Nat.mul_comm] at hn)
      have h := ih (n / 10) (Nat.digitChar (n % 10) :: ds) (k - 1) (by omega) hdiv
      simp only [List.length_cons] at h
      omega

theorem toDigits_length (n : Nat) (h : n < 10 ^ 10) : (Nat.toDigits 10 n).length ≤ 10 := by
  have h1 := toDigitsCore_length (n + 1) n [] 10 (by omega) h
  simpa [Nat.toDigits] using h1

theorem atoi_toDigits (n : Nat) (h : (n : Int) ≤ INT_MAX) :
    atoi (Nat.toDigits 10 n) = n := by
  obtain ⟨d, rest, hd, he⟩ := toDigitsCore_head n n []
  have hv := toDigits_value n
  unfold Nat.toDigits at hv ⊢
  rw [he] at hv ⊢
  obtain ⟨_, _, h3, h4, h5⟩ := digitChar_facts d hd
  unfold atoi
  simp only [List.dropWhile, h3, if_neg h4, if_neg h5, hv]
  exact min_eq_right h

theorem atoi_minus_toDigits (n : Nat) (h : INT_MIN ≤ -(n : Int)) :
    atoi ('-' :: Nat.toDigits 10 n) = -(n : Int) := by
  have hs : isspace '-' = false := by decide
  unfold atoi
  simp only [List.dropWhile, hs, if_true, toDigits_value]
  exact max_eq_right h

theorem atoi_itoa10 (i : Int) (h1 : INT_MIN ≤ i) (h2 : i ≤ INT_MAX) : atoi (itoa10 i) = i := by
  unfold itoa10
  by_cases hneg : i < 0
  · rw [if_pos hneg]
    have e : ((-i).toNat : Int) = -i := Int.toNat_of_nonneg (by omega)
    rw [atoi_minus_toDigits _ (by rw [e]; omega), e]
    omega
  · rw [if_neg hneg]
    have e : (i.toNat : Int) = i := Int.toNat_of_nonneg (by omega)
    rw [atoi_toDigits _ (by rw [e]; exact h2), e]

theorem itoa10_length (i : Int) (h1 : INT_MIN ≤ i) (h2 : i ≤ INT_MAX) :
    (itoa10 i).length ≤ 11 := by
  unfold INT_MIN at h1
  unfold INT_MAX at h2
  unfold itoa10
  by_cases hneg : i < 0
  · rw [if_pos hneg]
    have := toDigits_length (-i).toNat (by omega)
    simp only [List.length_cons]
    omega
  · rw [if_neg hneg]
    have := toDigits_length i.toNat (by omega)
    omega

theorem toInt32_range (v : Nat) : INT_MIN ≤ toInt32 v ∧ toInt32 v ≤ INT_MAX := by
  unfold toInt32 INT_MIN INT_MAX
  split <;> omega

theorem toUint32_toInt32 (v : Nat) (h : v < 2 ^ 32) : toUint32 (toInt32 v) = v := by
  unfold toUint32 toInt32
  split <;> omega

theorem toUint16_toInt32 (v : Nat) (h : v < 2 ^ 16) : toUint16 (toInt32 v) = v := by
  unfold toUint16 toInt32
  split <;> omega

theorem take_itoa10 (v : Nat) : (itoa10 (toInt32 v)).take 99 = itoa10 (toInt32 v) := by
  obtain ⟨h1, h2⟩ := toInt32_range v
  have := itoa10_length _ h1 h2
  exact List.take_of_length_le (by omega)

theorem roundtrip32 (v : Nat) (h : v < 2 ^ 32) :
    toUint32 (atoi ((itoa10 (toInt32 v)).take 99)) = v := by
  obtain ⟨h1, h2⟩ := toInt32_range v
  rw [take_itoa10, atoi_itoa10 _ h1 h2, toUint32_toInt32 v h]

theorem roundtrip16 (v : Nat) (h : v < 2 ^ 16) :
    toUint16 (atoi ((itoa10 (toInt32 v)).take 99)) = v := by
  obtain ⟨h1, h2⟩ := toInt32_range v
  rw [take_itoa10, atoi_itoa10 _ h1 h2, toUint16_toInt32 v h]

/-! ## The weapon slots and the name after `setCharacter` -/

theorem modifySlot_length (f : JABIA_Character_weapon → JABIA_Character_weapon) :
    ∀ i ws, (modifySlot f i ws).length = ws.length := by
  intro i ws
  induction ws generalizing i with
  | nil => cases i <;> rfl
  | cons w ws ih =>
    cases i with
    | zero => rfl
    | succ i => simp only [modifySlot, List.length_cons, ih]

theorem modifySlot_get? (f : JABIA_Character_weapon → JABIA_Character_weapon) :
    ∀ i ws j, (modifySlot f i ws).get? j
      = if j = i then (ws.get? j).map f else ws.get? j := by
  intro i ws
  induction ws generalizing i with
  | nil => intro j; cases i <;> simp [modifySlot]
  | cons w ws ih =>
    intro j
    cases i with
    | zero =>
      cases j with
      | zero => simp [modifySlot]
      | succ j => simp [modifySlot]
    | succ i =>
      cases j with
      | zero => simp [modifySlot]
      | succ j =>
        rw [modifySlot, List.get?_cons_succ, List.get?_cons_succ, ih]
        simp only [Nat.add_right_cancel_iff]

theorem modifySlot_comp (f g : JABIA_Character_weapon → JABIA_Character_weapon) :
    ∀ i ws, modifySlot g i (modifySlot f i ws) = modifySlot (fun w => g (f w)) i ws := by
  intro i ws
  induction ws generalizing i with
  | nil => cases i <;> rfl
  | cons w ws ih =>
    cases i with
    | zero => rfl
    | succ i => simp only [modifySlot, ih]

theorem assign_weapons (c : JABIA_Character) (m : Member) (v : Nat) :
    (c.assign m v).weapons = c.weapons := by
  unfold JABIA_Character.assign; rfl

theorem assignName_weapons (c : JABIA_Character) (bytes : List Char) :
    (c.assignName bytes).weapons = c.weapons := by
  unfold JABIA_Character.assignName; rfl

theorem assignNameLength_weapons (c : JABIA_Character) :
    (c.assignNameLength).weapons = c.weapons := by
  unfold JABIA_Character.assignNameLength; exact assign_weapons _ _ _

theorem assignSlot_weapons (c : JABIA_Character) (i : Nat)
    (f : JABIA_Character_weapon → JABIA_Character_weapon) :
    (c.assignSlot i f).weapons = modifySlot f i c.weapons := by
  unfold JABIA_Character.assignSlot; rfl

theorem assignSlot_merc_name (c : JABIA_Character) (i : Nat)
    (f : JABIA_Character_weapon → JABIA_Character_weapon) :
    (c.assignSlot i f).merc_name = c.merc_name := by
  unfold JABIA_Character.assignSlot; rfl

theorem assignNameLength_merc_name (c : JABIA_Character) :
    (c.assignNameLength).merc_name = c.merc_name := by
  unfold JABIA_Character.assignNameLength; exact assign_merc_name _ _ _

theorem setCharacter_weapons (atof : List Char → Nat) (maxName : Nat) (hwnd : Dialog)
    (slot : Int) (character c : JABIA_Character)
    (h : setCharacter atof maxName hwnd slot character = some c) :
    c.weapons = modifySlot
      (fun _ => { weapon := toUint16 (atoi ((hwnd Ctl.IDC_WPN_INV).take 99)),
                  removable := 1,
                  weapon_durability := toUint16 (atoi ((hwnd Ctl.IDC_WPN_INV_DUR).take 99)),
                  ammo_count := toUint16 (atoi ((hwnd Ctl.IDC_AMMO_INV_CNT).take 99)) })
      slot.toNat character.weapons := by
  unfold setCharacter at h
  split at h
  · simp only [Option.some.injEq] at h
    subst h
    simp only [assign_weapons, assignSlot_weapons, assignName_weapons,
      assignNameLength_weapons, modifySlot_comp, GetDlgItemText_100]
  · simp at h

theorem setCharacter_merc_name (atof : List Char → Nat) (maxName : Nat) (hwnd : Dialog)
    (slot : Int) (character c : JABIA_Character)
    (h : setCharacter atof maxName hwnd slot character = some c) :
    c.merc_name = nameBuffer hwnd maxName := by
  unfold setCharacter at h
  split at h
  · simp only [Option.some.injEq] at h
    subst h
    simp only [assign_merc_name, assignSlot_merc_name, assignName_merc_name,
      assignNameLength_merc_name]
  · simp at h

/-- C15: for every dialog state (with the selected weapon slot inside the array),
`setCharacter` sets `weapon_in_hand_removable`, `weapon_attachment_status` and the
`removable` member of the slot at `last_weaponslot_selected_index` to 1 whatever the dialog
holds, keeps the number of slots, and leaves every other slot as it was. -/
theorem C15_forced_flags_slot_frame (atof : List Char → Nat) (maxName : Nat) (hwnd : Dialog)
    (slot : Int) (character : JABIA_Character)
    (h : 0 ≤ slot ∧ slot.toNat < character.weapons.length) :
    ∃ c, setCharacter atof maxName hwnd slot character = some c ∧
      c.member Member.weapon_in_hand_removable = 1 ∧
      c.member Member.weapon_attachment_status = 1 ∧
      (c.weapons.get? slot.toNat).map (fun w => w.removable) = some 1 ∧
      c.weapons.length = character.weapons.length ∧
      ∀ j, j ≠ slot.toNat → c.weapons.get? j = character.weapons.get? j := by
  obtain ⟨c, hc⟩ := setCharacter_some atof maxName hwnd slot character h
  have hm := setCharacter_member atof maxName hwnd slot character c hc
  have hw := setCharacter_weapons atof maxName hwnd slot character c hc
  refine ⟨c, hc, ?_, ?_, ?_, ?_, ?_⟩
  · rw [hm]; rfl
  · rw [hm]; rfl
  · rw [hw, modifySlot_get?, if_pos rfl]
    obtain ⟨w, hwv⟩ : ∃ w, character.weapons.get? slot.toNat = some w :=
      ⟨_, List.get?_eq_get h.2⟩
    rw [hwv]
    rfl
  · rw [hw, modifySlot_length]
  · intro j hj
    rw [hw, modifySlot_get?, if_neg hj]

/-- Witness of C15: the sample dialog applied to the sample record with slot 1 selected
forces the three flags and leaves slots 0 and 2 as they were. -/
theorem C15_forced_flags_slot_frame_witness :
    ∃ c, setCharacter atofZero 16 sampleDialog 1 sampleCharacter = some c ∧
      c.member Member.weapon_in_hand_removable = 1 ∧
      c.member Member.weapon_attachment_status = 1 ∧
      (c.weapons.get? 1).map (fun w => w.removable) = some 1 ∧
      c.weapons.get? 0 = some ⟨0, 0, 0, 0⟩ ∧ c.weapons.get? 2 = some ⟨0, 0, 0, 0⟩ := by
  obtain ⟨c, hc, h1, h2, h3, _, h5⟩ :=
    C15_forced_flags_slot_frame atofZero 16 sampleDialog 1 sampleCharacter (by decide)
  exact ⟨c, hc, h1, h2, h3, (h5 0 (by decide)).trans rfl, (h5 2 (by decide)).trans rfl⟩

/-! ## The name after `setCharacter` -/

theorem strlen_append_NUL (t rest : List Char) (h : NUL ∉ t) :
    strlen (t ++ NUL :: rest) = t.length := by
  unfold strlen
  induction t with
  | nil => simp [List.takeWhile]
  | cons a t ih =>
    have ha : a ≠ NUL := fun e => h (by rw [e]; exact List.mem_cons_self _ _)
    have ht : NUL ∉ t := fun e => h (List.mem_cons_of_mem _ e)
    have hb : (a != NUL) = true := by simpa using ha
    rw [List.cons_append, List.takeWhile_cons, hb]
    simp only [if_true, List.length_cons, ih ht]

theorem nameBuffer_eq (hwnd : Dialog) (n : Nat) (hn : 0 < n) :
    ∃ k, nameBuffer hwnd n
        = (hwnd Ctl.IDC_MERC_NAME).take (n - 1) ++ NUL :: List.replicate k NUL ∧
      ((hwnd Ctl.IDC_MERC_NAME).take (n - 1)).length + (k + 1) = n := by
  have hl : ((hwnd Ctl.IDC_MERC_NAME).take (n - 1)).length ≤ n - 1 := by
    rw [List.length_take]; exact Nat.min_le_left _ _
  refine ⟨n - ((hwnd Ctl.IDC_MERC_NAME).take (n - 1)).length - 1, ?_, by omega⟩
  unfold nameBuffer GetDlgItemText
  have e : n - ((hwnd Ctl.IDC_MERC_NAME).take (n - 1)).length
      = (n - ((hwnd Ctl.IDC_MERC_NAME).take (n - 1)).length - 1) + 1 := by omega
  rw [e, List.replicate_succ]
  congr 2

/-- C14: for every text of the `IDC_MERC_NAME` control (a C string, so without NUL; the
selected weapon slot inside the array, the name size between 1 and the 100 bytes of `buf`),
after `setCharacter` `name_length` is the number of bytes of `merc_name` before its first
NUL, it is at most `JABIA_CHARACTER_MAX_NAME_LENGTH - 1`, and `merc_name` is the first
`name_length` characters of the text followed by NUL bytes up to
`JABIA_CHARACTER_MAX_NAME_LENGTH`. -/
theorem C14_name_invariant (atof : List Char → Nat) (maxName : Nat) (hwnd : Dialog)
    (slot : Int) (character : JABIA_Character)
    (hslot : 0 ≤ slot ∧ slot.toNat < character.weapons.length)
    (hmax : 0 < maxName ∧ maxName ≤ 100) (hnul : NUL ∉ hwnd Ctl.IDC_MERC_NAME) :
    ∃ c, setCharacter atof maxName hwnd slot character = some c ∧
      c.member Member.name_length = strlen c.merc_name ∧
      c.member Member.name_length ≤ maxName - 1 ∧
      c.merc_name.length = maxName ∧
      c.merc_name = (hwnd Ctl.IDC_MERC_NAME).take (c.member Member.name_length)
        ++ List.replicate (maxName - c.member Member.name_length) NUL := by
  obtain ⟨c, hc⟩ := setCharacter_some atof maxName hwnd slot character hslot
  have hm := setCharacter_member atof maxName hwnd slot character c hc Member.name_length
  have hn := setCharacter_merc_name atof maxName hwnd slot character c hc
  obtain ⟨k, hk, hlen⟩ := nameBuffer_eq hwnd maxName hmax.1
  have hnt : NUL ∉ (hwnd Ctl.IDC_MERC_NAME).take (maxName - 1) :=
    fun e => hnul (List.mem_of_mem_take e)
  have hs : strlen (nameBuffer hwnd maxName)
      = ((hwnd Ctl.IDC_MERC_NAME).take (maxName - 1)).length := by
    rw [hk]; exact strlen_append_NUL _ _ hnt
  have hl : ((hwnd Ctl.IDC_MERC_NAME).take (maxName - 1)).length ≤ maxName - 1 := by
    rw [List.length_take]; exact Nat.min_le_left _ _
  have hv : c.member Member.name_length
      = ((hwnd Ctl.IDC_MERC_NAME).take (maxName - 1)).length := by
    rw [hm]
    simp only [reduceCtorEq, if_false, if_true]
    rw [hs]
    unfold toDWORD DWORD_MOD
    omega
  refine ⟨c, hc, ?_, ?_, ?_, ?_⟩
  · rw [hv, hn, hs]
  · rw [hv]; exact hl
  · rw [hn, hk, List.length_append, List.length_cons, List.length_replicate]
    omega
  · rw [hv, hn, hk]
    have e1 : (hwnd Ctl.IDC_MERC_NAME).take
        ((hwnd Ctl.IDC_MERC_NAME).take (maxName - 1)).length
        = (hwnd Ctl.IDC_MERC_NAME).take (maxName - 1) := by
      rw [List.length_take, List.take_eq_take]
      omega
    have e2 : maxName - ((hwnd Ctl.IDC_MERC_NAME).take (maxName - 1)).length = k + 1 := by
      omega
    rw [e1, e2, List.replicate_succ]

/-- Witness of C14: the name Ivan with a name size of 16 gives `name_length` 4 and
`merc_name` `Ivan` followed by twelve NUL bytes. -/
theorem C14_name_invariant_witness :
    ∃ c, setCharacter atofZero 16 sampleDialog 0 sampleCharacter = some c ∧
      c.member Member.name_length = 4 ∧
      c.merc_name = ['I', 'v', 'a', 'n'] ++ List.replicate 12 NUL := by
  obtain ⟨c, hc, _, _, _, h4⟩ :=
    C14_name_invariant atofZero 16 sampleDialog 0 sampleCharacter (by decide) (by decide)
      (by decide)
  have hm := setCharacter_member atofZero 16 sampleDialog 0 sampleCharacter c hc
    Member.name_length
  have hv : c.member Member.name_length = 4 := by
    rw [hm]
    decide
  rw [hv] at h4
  exact ⟨c, hc, hv, h4⟩

/-! ## `fillDialog` followed by `setCharacter` -/

theorem fillDialog_some (ftoa : Nat → List Char) (slot : Int) (ptr : Nat)
    (character : JABIA_Character) (hwnd : Dialog) (w : JABIA_Character_weapon)
    (hslot : 0 ≤ slot) (hw : character.weapons.get? slot.toNat = some w)
    (hname : character.member Member.name_length < 16 ∧
      character.member Member.name_length ≤ character.merc_name.length) :
    fillDialog ftoa slot ptr character hwnd = some (fillTexts ftoa ptr character w hwnd) := by
  unfold fillDialog
  rw [if_pos ⟨hslot, hname⟩, hw]

theorem set_after_fill_uint32 (atof : List Char → Nat) (ftoa : Nat → List Char)
    (maxName : Nat) (slot : Int) (ptr : Nat) (hwnd : Dialog) (character c : JABIA_Character)
    (w : JABIA_Character_weapon)
    (hc : setCharacter atof maxName (fillTexts ftoa ptr character w hwnd) slot character
      = some c)
    (h32 : ∀ k ∈ uint32Members, character.member k < 2 ^ 32) :
    ∀ k ∈ uint32Members, c.member k = character.member k := by
  intro k hk
  have hb := h32 k hk
  have hmk := setCharacter_member atof maxName _ slot character c hc k
  simp only [uint32Members, List.mem_cons, List.mem_singleton, List.not_mem_nil,
    or_false] at hk
  rcases hk with rfl | rfl | rfl | rfl | rfl | rfl | rfl | rfl | rfl | rfl | rfl | rfl | rfl | rfl | rfl <;>
    (simp only [reduceCtorEq, ↓reduceIte] at hmk
     simp only [fillTexts, SetDlgItemText, reduceCtorEq, ↓reduceIte] at hmk
     rw [hmk]
     exact roundtrip32 _ hb)

theorem set_after_fill_uint16 (atof : List Char → Nat) (ftoa : Nat → List Char)
    (maxName : Nat) (slot : Int) (ptr : Nat) (hwnd : Dialog) (character c : JABIA_Character)
    (w : JABIA_Character_weapon)
    (hc : setCharacter atof maxName (fillTexts ftoa ptr character w hwnd) slot character
      = some c)
    (h16 : ∀ k ∈ uint16Members, character.member k < 2 ^ 16) :
    ∀ k ∈ uint16Members, c.member k
      = if k = Member.vest_equiped_durability
        then character.member Member.shoes_equiped_durability else character.member k := by
  intro k hk
  have hb := h16 k hk
  have hs := h16 Member.shoes_equiped_durability (by decide)
  have hmk := setCharacter_member atof maxName _ slot character c hc k
  simp only [uint16Members, List.mem_cons, List.mem_singleton, List.not_mem_nil,
    or_false] at hk
  rcases hk with rfl | rfl | rfl | rfl | rfl | rfl | rfl | rfl | rfl | rfl | rfl | rfl | rfl | rfl | rfl | rfl | rfl | rfl | rfl <;>
    (simp only [reduceCtorEq, ↓reduceIte] at hmk ⊢
     first
      | exact hmk
      | (simp only [fillTexts, SetDlgItemText, reduceCtorEq, ↓reduceIte] at hmk
         rw [hmk]
         first
          | exact roundtrip16 _ hb
          | exact roundtrip16 _ hs))

theorem fillThenSet_roundtrip (atof : List Char → Nat) (ftoa : Nat → List Char)
    (maxName : Nat) (slot : Int) (ptr : Nat) (hwnd : Dialog) (character : JABIA_Character)
    (w : JABIA_Character_weapon)
    (hslot : 0 ≤ slot) (hw : character.weapons.get? slot.toNat = some w)
    (hname : character.member Member.name_length < 16 ∧
      character.member Member.name_length ≤ character.merc_name.length)
    (hfit : fitsTypes character) :
    ∃ c, fillThenSet atof ftoa maxName slot ptr hwnd character = some c ∧
      (∀ k, k ∉ notDecimalMembers → k ≠ Member.vest_equiped_durability →
        c.member k = character.member k) ∧
      c.member Member.vest_equiped_durability
        = character.member Member.shoes_equiped_durability ∧
      c.weapons.get? slot.toNat = some { w with removable := 1 } := by
  obtain ⟨h32, h16, hws⟩ := hfit
  have hlt : slot.toNat < character.weapons.length := by
    rcases Nat.lt_or_ge slot.toNat character.weapons.length with h | h
    · exact h
    · rw [List.get?_eq_none.mpr h] at hw
      cases hw
  obtain ⟨c, hc⟩ := setCharacter_some atof maxName (fillTexts ftoa ptr character w hwnd) slot
    character ⟨hslot, hlt⟩
  have hwp := setCharacter_weapons atof maxName _ slot character c hc
  have r32 := set_after_fill_uint32 atof ftoa maxName slot ptr hwnd character c w hc h32
  have r16 := set_after_fill_uint16 atof ftoa maxName slot ptr hwnd character c w hc h16
  have hfs : fillThenSet atof ftoa maxName slot ptr hwnd character = some c := by
    unfold fillThenSet
    rw [fillDialog_some ftoa slot ptr character hwnd w hslot hw hname]
    exact hc
  refine ⟨c, hfs, ?_, ?_, ?_⟩
  · intro k hk1 hk2
    by_cases m32 : k ∈ uint32Members
    · exact r32 k m32
    · by_cases m16 : k ∈ uint16Members
      · rw [r16 k m16, if_neg hk2]
      · exfalso
        revert hk1 m32 m16
        cases k <;> decide
  · rw [r16 _ (by decide), if_pos rfl]
  · obtain ⟨b1, b2, b3⟩ := hws w (List.get?_mem hw)
    rw [hwp, modifySlot_get?, if_pos rfl, hw]
    simp only [fillTexts, SetDlgItemText, reduceCtorEq, ↓reduceIte, Option.map_some']
    rw [roundtrip16 _ b1, roundtrip16 _ b2, roundtrip16 _ b3]

set_option maxRecDepth 100000 in
/-- C11 (the code at the failing input): `fillDialog` on the sample record (vest
durability 20, shoes durability 10, weapon slot 0 selected) followed by `setCharacter` on
the untouched dialog leaves vest durability 10, the value of the shoes, instead of 20; the
shoes durability comes back as it was. -/
theorem C11_fill_then_set_failing_input :
    sampleCharacter.member Member.vest_equiped_durability = 20 ∧
    (fillThenSet atofZero ftoaZero 16 0 0x2000 emptyDialog sampleCharacter).map
        (fun c => c.member Member.vest_equiped_durability) = some 10 ∧
    (fillThenSet atofZero ftoaZero 16 0 0x2000 emptyDialog sampleCharacter).map
        (fun c => c.member Member.shoes_equiped_durability) = some 10 := by
  decide

/-! ## `DialogProc`: fall-through of the combo-box commands, and the lookup -/

theorem Outcome.andThen_ok (s : DialogState) (k : DialogState → Outcome) :
    (Outcome.ok s).andThen k = k s := by
  unfold Outcome.andThen
  rfl

theorem Outcome.andThen_out_of_range (s : DialogState) (k : DialogState → Outcome) :
    (Outcome.out_of_range s).andThen k = Outcome.out_of_range s := by
  unfold Outcome.andThen
  rfl

theorem Outcome.andThen_ok_right (o : Outcome) : o.andThen Outcome.ok = o := by
  cases o <;> rfl

theorem DialogProc_IDSET (atof : List Char → Nat) (ftoa : Nat → List Char) (maxName : Nat)
    (code : Nat) (s : DialogState) :
    DialogProc_WM_COMMAND atof ftoa maxName Command.IDSET code s
      = case_IDSET atof maxName s := by
  simp only [DialogProc_WM_COMMAND, switch, WM_COMMAND_cases, List.dropWhile, runCases,
    bne, BEq.beq, decide_True, decide_False, Bool.not_true, Bool.not_false, reduceCtorEq,
    if_true, Outcome.andThen_ok_right]

theorem DialogProc_IDC_COMBO2 (atof : List Char → Nat) (ftoa : Nat → List Char)
    (maxName : Nat) (code : Nat) (s : DialogState) :
    DialogProc_WM_COMMAND atof ftoa maxName Command.IDC_COMBO2 code s
      = (case_IDC_COMBO2 ftoa code s).andThen (case_IDSET atof maxName) := by
  simp only [DialogProc_WM_COMMAND, switch, WM_COMMAND_cases, List.dropWhile, runCases,
    bne, BEq.beq, decide_True, decide_False, Bool.not_true, Bool.not_false, reduceCtorEq,
    if_true, if_false, Bool.false_eq_true, Outcome.andThen_ok_right]

theorem DialogProc_IDC_COMBO1 (atof : List Char → Nat) (ftoa : Nat → List Char)
    (maxName : Nat) (code : Nat) (s : DialogState) :
    DialogProc_WM_COMMAND atof ftoa maxName Command.IDC_COMBO1 code s
      = (case_IDC_COMBO1 ftoa code s).andThen
          (fun s1 => (case_IDC_COMBO2 ftoa code s1).andThen (case_IDSET atof maxName)) := by
  simp only [DialogProc_WM_COMMAND, switch, WM_COMMAND_cases, List.dropWhile, runCases,
    bne, BEq.beq, decide_True, decide_False, Bool.not_true, Bool.not_false, reduceCtorEq,
    if_true, if_false, Bool.false_eq_true, Outcome.andThen_ok_right]

theorem DialogProc_IDM_DUMP_CHARACTER (atof : List Char → Nat) (ftoa : Nat → List Char)
    (maxName : Nat) (code : Nat) (s : DialogState) :
    DialogProc_WM_COMMAND atof ftoa maxName Command.IDM_DUMP_CHARACTER code s
      = case_IDM_DUMP_CHARACTER s := by
  simp only [DialogProc_WM_COMMAND, switch, WM_COMMAND_cases, List.dropWhile, runCases,
    bne, BEq.beq, decide_True, decide_False, Bool.not_true, Bool.not_false, reduceCtorEq,
    if_true, if_false, Bool.false_eq_true, Outcome.andThen_ok_right]

theorem vector_at_isSome (v : List Nat) (i : Int) (hi : -2 ^ 31 ≤ i ∧ i < 2 ^ 31)
    (hv : v.length < 2 ^ 31) :
    (vector_at v i).isSome = true ↔ 0 ≤ i ∧ i < v.length := by
  unfold vector_at
  rw [List.get?_eq_getElem?, Option.isSome_iff_exists]
  constructor
  · rintro ⟨a, ha⟩
    have hlt := (List.getElem?_eq_some_iff.mp ha).1
    omega
  · rintro ⟨h0, h1⟩
    have hlt : (i % 2 ^ 32).toNat < v.length := by omega
    exact ⟨v[(i % 2 ^ 32).toNat], List.getElem?_eq_getElem hlt⟩

theorem vector_at_none_of_not (v : List Nat) (i : Int) (hi : -2 ^ 31 ≤ i ∧ i < 2 ^ 31)
    (hv : v.length < 2 ^ 31) (h : ¬ (0 ≤ i ∧ i < v.length)) : vector_at v i = none := by
  have h1 := vector_at_isSome v i hi hv
  cases hx : vector_at v i with
  | none => rfl
  | some a =>
    rw [hx] at h1
    exact absurd (h1.mp rfl) h

theorem at_fillDialog_none (ftoa : Nat → List Char) (s : DialogState)
    (h : vector_at s.jabia_characters s.last_character_selected_index = none) :
    at_fillDialog ftoa s = Outcome.out_of_range s := by
  unfold at_fillDialog
  rw [h]

theorem case_IDSET_none (atof : List Char → Nat) (maxName : Nat) (s : DialogState)
    (h : vector_at s.jabia_characters s.last_character_selected_index = none) :
    case_IDSET atof maxName s = Outcome.out_of_range s := by
  unfold case_IDSET
  rw [h]

theorem case_IDM_DUMP_CHARACTER_none (s : DialogState)
    (h : vector_at s.jabia_characters s.last_character_selected_index = none) :
    case_IDM_DUMP_CHARACTER s = Outcome.out_of_range s := by
  unfold case_IDM_DUMP_CHARACTER
  rw [h]

/-- A command that starts with a failing lookup ends with the exception, in a state that
differs from the one before at most in the two selection indices. -/
theorem DialogProc_lookup_fails (atof : List Char → Nat) (ftoa : Nat → List Char)
    (maxName : Nat) (id : Command) (code : Nat) (s : DialogState)
    (hid : id ∈ [Command.IDC_COMBO1, Command.IDC_COMBO2, Command.IDSET,
      Command.IDM_DUMP_CHARACTER])
    (h : vector_at s.jabia_characters (lookupIndex id code s) = none) :
    ∃ s1, DialogProc_WM_COMMAND atof ftoa maxName id code s = Outcome.out_of_range s1 ∧
      s1.records = s.records ∧ s1.jabia_characters = s.jabia_characters ∧
      s1.hwnd = s.hwnd ∧ s1.dumps = s.dumps := by
  simp only [List.mem_cons, List.mem_singleton, List.not_mem_nil, or_false] at hid
  rcases hid with rfl | rfl | rfl | rfl
  · rw [DialogProc_IDC_COMBO1]
    by_cases hc : code = CBN_CLOSEUP
    · simp only [lookupIndex, hc, and_self, if_true] at h
      refine ⟨{ s with last_character_selected_index := s.comboControl1 }, ?_, rfl, rfl,
        rfl, rfl⟩
      unfold case_IDC_COMBO1
      rw [if_pos hc, at_fillDialog_none ftoa
        { s with last_character_selected_index := s.comboControl1 } h,
        Outcome.andThen_out_of_range]
    · simp only [lookupIndex, hc, and_false, if_false] at h
      refine ⟨s, ?_, rfl, rfl, rfl, rfl⟩
      unfold case_IDC_COMBO1 case_IDC_COMBO2
      rw [if_neg hc, Outcome.andThen_ok, if_neg hc, Outcome.andThen_ok,
        case_IDSET_none atof maxName s h]
  · simp only [lookupIndex, reduceCtorEq, false_and, if_false] at h
    rw [DialogProc_IDC_COMBO2]
    by_cases hc : code = CBN_CLOSEUP
    · refine ⟨{ s with last_weaponslot_selected_index := s.comboControl2 }, ?_, rfl, rfl,
        rfl, rfl⟩
      unfold case_IDC_COMBO2
      rw [if_pos hc, at_fillDialog_none ftoa
        { s with last_weaponslot_selected_index := s.comboControl2 } h,
        Outcome.andThen_out_of_range]
    · refine ⟨s, ?_, rfl, rfl, rfl, rfl⟩
      unfold case_IDC_COMBO2
      rw [if_neg hc, Outcome.andThen_ok, case_IDSET_none atof maxName s h]
  · simp only [lookupIndex, reduceCtorEq, false_and, if_false] at h
    rw [DialogProc_IDSET]
    exact ⟨s, case_IDSET_none atof maxName s h, rfl, rfl, rfl, rfl⟩
  · simp only [lookupIndex, reduceCtorEq, false_and, if_false] at h
    rw [DialogProc_IDM_DUMP_CHARACTER]
    exact ⟨s, case_IDM_DUMP_CHARACTER_none s h, rfl, rfl, rfl, rfl⟩

theorem pollLoop_lookup_fails (m : Mem) (p : Poll) (rest : List Poll) (hf : p.f7 = true)
    (h : vector_at p.jabia_characters p.last_character_selected_index = none) :
    pollLoop m (p :: rest)
      = { exit := some Exit.out_of_range, mem := p.env m, iterations := 1 } := by
  simp only [pollLoop, hf, if_true, h]

theorem vector_at_of_get? (v : List Nat) (i : Int) (a : Nat) (hi : 0 ≤ i ∧ i < 2 ^ 31)
    (h : v.get? i.toNat = some a) : vector_at v i = some a := by
  unfold vector_at
  have e : (i % 2 ^ 32).toNat = i.toNat := by omega
  rw [e, h]

theorem case_IDSET_some (atof : List Char → Nat) (maxName : Nat) (s : DialogState)
    (address : Nat) (c : JABIA_Character)
    (hv : vector_at s.jabia_characters s.last_character_selected_index = some address)
    (hset : setCharacter atof maxName s.hwnd s.last_weaponslot_selected_index
      (s.records address) = some c) :
    case_IDSET atof maxName s
      = Outcome.ok { s with records := Function.update s.records address c } := by
  unfold case_IDSET
  rw [hv]
  dsimp only
  rw [hset]

theorem at_fillDialog_some (ftoa : Nat → List Char) (s : DialogState) (address : Nat)
    (d : Dialog)
    (hv : vector_at s.jabia_characters s.last_character_selected_index = some address)
    (hfill : fillDialog ftoa s.last_weaponslot_selected_index address (s.records address)
      s.hwnd = some d) :
    at_fillDialog ftoa s = Outcome.ok { s with hwnd := d } := by
  unfold at_fillDialog
  rw [hv]
  dsimp only
  rw [hfill]

/-- C12 (as stated, refuted): on the sample state (one recorded character at index 0, text
`12` in `IDC_LEV`, level 0 in the record, no selection in the first combo box) the `IDSET`
command sets the level to 12, but the command `IDC_COMBO1` with `CBN_CLOSEUP` stores -1 in
`last_character_selected_index`, raises `std::out_of_range` at line 245 and leaves the
level at 0: `setCharacter` is not applied. -/
theorem C12_counterexample :
    sampleState.comboControl1 = -1 ∧
    ((DialogProc_WM_COMMAND atofZero ftoaZero 16 Command.IDSET CBN_CLOSEUP
        sampleState).ok?).map (fun s => (s.records 0x2000).member Member.level) = some 12 ∧
    ((DialogProc_WM_COMMAND atofZero ftoaZero 16 Command.IDC_COMBO1 CBN_CLOSEUP
        sampleState).ok?).isSome = false ∧
    ((DialogProc_WM_COMMAND atofZero ftoaZero 16 Command.IDC_COMBO1 CBN_CLOSEUP
        sampleState).out_of_range?).map
      (fun s => (s.last_character_selected_index, (s.records 0x2000).member Member.level))
      = some (-1, 0) := by
  refine ⟨rfl, ?_, ?_, ?_⟩
  · rw [DialogProc_IDSET]
    decide
  · rw [DialogProc_IDC_COMBO1]
    decide
  · rw [DialogProc_IDC_COMBO1]
    decide

/-- C12 (amended): what `DialogProc` does on a `WM_COMMAND` for the combo boxes, written out
without the sequencing of the model. (1) On `IDSET`, and on `IDC_COMBO1` or `IDC_COMBO2`
with a code other than `CBN_CLOSEUP`, when `last_character_selected_index` is a valid index
`i` of `jabia_characters`: the record at the address `jabia_characters[i]` becomes what
`setCharacter` makes of it, and nothing else changes. (2) On `IDC_COMBO2` with
`CBN_CLOSEUP`: the selection of the second combo box is stored in
`last_weaponslot_selected_index`, `fillDialog` runs, then `setCharacter` is applied to the
same record with the filled dialog and the new slot. (3) On `IDC_COMBO1` with
`CBN_CLOSEUP`: the selection of the first combo box is stored in
`last_character_selected_index`, `fillDialog` runs, then the close-up action of
`IDC_COMBO2` (new slot, `fillDialog` again), then `setCharacter`. (4) When the index of the
first lookup is not a valid index, the command ends with `std::out_of_range` and every
record is as before. -/
theorem C12_combo_commands_fall_through (atof : List Char → Nat) (ftoa : Nat → List Char)
    (maxName : Nat) (code : Nat) (s : DialogState) :
    (∀ (i : Int) (address : Nat) (c : JABIA_Character) (id : Command),
      0 ≤ i ∧ i < 2 ^ 31 → s.jabia_characters.get? i.toNat = some address →
      s.last_character_selected_index = i →
      setCharacter atof maxName s.hwnd s.last_weaponslot_selected_index
        (s.records address) = some c →
      id = Command.IDSET
        ∨ ((id = Command.IDC_COMBO1 ∨ id = Command.IDC_COMBO2) ∧ code ≠ CBN_CLOSEUP) →
      DialogProc_WM_COMMAND atof ftoa maxName id code s
        = Outcome.ok { s with records := Function.update s.records address c }) ∧
    (∀ (i : Int) (address : Nat) (d : Dialog) (c : JABIA_Character),
      0 ≤ i ∧ i < 2 ^ 31 → s.jabia_characters.get? i.toNat = some address →
      s.last_character_selected_index = i → code = CBN_CLOSEUP →
      fillDialog ftoa s.comboControl2 address (s.records address) s.hwnd = some d →
      setCharacter atof maxName d s.comboControl2 (s.records address) = some c →
      DialogProc_WM_COMMAND atof ftoa maxName Command.IDC_COMBO2 code s
        = Outcome.ok { s with last_weaponslot_selected_index := s.comboControl2
                              hwnd := d
                              records := Function.update s.records address c }) ∧
    (∀ (i : Int) (address : Nat) (d1 d2 : Dialog) (c : JABIA_Character),
      0 ≤ i ∧ i < 2 ^ 31 → s.jabia_characters.get? i.toNat = some address →
      s.comboControl1 = i → code = CBN_CLOSEUP →
      fillDialog ftoa s.last_weaponslot_selected_index address (s.records address) s.hwnd
        = some d1 →
      fillDialog ftoa s.comboControl2 address (s.records address) d1 = some d2 →
      setCharacter atof maxName d2 s.comboControl2 (s.records address) = some c →
      DialogProc_WM_COMMAND atof ftoa maxName Command.IDC_COMBO1 code s
        = Outcome.ok { s with last_character_selected_index := s.comboControl1
                              last_weaponslot_selected_index := s.comboControl2
                              hwnd := d2
                              records := Function.update s.records address c }) ∧
    (∀ (i : Int) (id : Command),
      id = Command.IDC_COMBO1 ∨ id = Command.IDC_COMBO2 ∨ id = Command.IDSET →
      (if id = Command.IDC_COMBO1 ∧ code = CBN_CLOSEUP then s.comboControl1
        else s.last_character_selected_index) = i →
      -2 ^ 31 ≤ i ∧ i < 2 ^ 31 → s.jabia_characters.length < 2 ^ 31 →
      ¬ (0 ≤ i ∧ i < s.jabia_characters.length) →
      ∃ s1, DialogProc_WM_COMMAND atof ftoa maxName id code s = Outcome.out_of_range s1 ∧
        s1.records = s.records) := by
  refine ⟨?_, ?_, ?_, ?_⟩
  · intro i address c id hi hat hidx hset hid
    have hv : vector_at s.jabia_characters s.last_character_selected_index = some address := by
      rw [hidx]
      exact vector_at_of_get? _ i address hi hat
    rcases hid with rfl | ⟨rfl | rfl, hne⟩
    · rw [DialogProc_IDSET]
      exact case_IDSET_some atof maxName s address c hv hset
    · rw [DialogProc_IDC_COMBO1]
      unfold case_IDC_COMBO1 case_IDC_COMBO2
      rw [if_neg hne, Outcome.andThen_ok, if_neg hne, Outcome.andThen_ok]
      exact case_IDSET_some atof maxName s address c hv hset
    · rw [DialogProc_IDC_COMBO2]
      unfold case_IDC_COMBO2
      rw [if_neg hne, Outcome.andThen_ok]
      exact case_IDSET_some atof maxName s address c hv hset
  · intro i address d c hi hat hidx hcode hfill hset
    have hv : vector_at s.jabia_characters s.last_character_selected_index = some address := by
      rw [hidx]
      exact vector_at_of_get? _ i address hi hat
    rw [DialogProc_IDC_COMBO2]
    unfold case_IDC_COMBO2
    rw [if_pos hcode,
      at_fillDialog_some ftoa { s with last_weaponslot_selected_index := s.comboControl2 }
        address d hv hfill,
      Outcome.andThen_ok]
    exact case_IDSET_some atof maxName
      { s with last_weaponslot_selected_index := s.comboControl2, hwnd := d } address c hv hset
  · intro i address d1 d2 c hi hat hidx hcode hfill1 hfill2 hset
    have hv : vector_at s.jabia_characters s.comboControl1 = some address := by
      rw [hidx]
      exact vector_at_of_get? _ i address hi hat
    rw [DialogProc_IDC_COMBO1]
    unfold case_IDC_COMBO1 case_IDC_COMBO2
    rw [if_pos hcode,
      at_fillDialog_some ftoa { s with last_character_selected_index := s.comboControl1 }
        address d1 hv hfill1,
      Outcome.andThen_ok]
    dsimp only
    rw [if_pos hcode,
      at_fillDialog_some ftoa
        { s with last_character_selected_index := s.comboControl1
                 last_weaponslot_selected_index := s.comboControl2
                 hwnd := d1 }
        address d2 hv hfill2,
      Outcome.andThen_ok]
    exact case_IDSET_some atof maxName
      { s with last_character_selected_index := s.comboControl1
               last_weaponslot_selected_index := s.comboControl2
               hwnd := d2 }
      address c hv hset
  · intro i id hid hidx hi hlen hout
    have hnone : vector_at s.jabia_characters (lookupIndex id code s) = none := by
      unfold lookupIndex
      rw [hidx]
      exact vector_at_none_of_not s.jabia_characters i hi hlen hout
    have hmem : id ∈ [Command.IDC_COMBO1, Command.IDC_COMBO2, Command.IDSET,
        Command.IDM_DUMP_CHARACTER] := by
      rcases hid with rfl | rfl | rfl <;> decide
    obtain ⟨s1, h1, h2, _⟩ := DialogProc_lookup_fails atof ftoa maxName id code s hmem hnone
    exact ⟨s1, h1, h2⟩

/-- Witness of C12: on the sample state the command `IDC_COMBO2` with notification code 0
applies `setCharacter` to the record at `0x2000`, whose level becomes 12. -/
theorem C12_combo_commands_fall_through_witness :
    ∃ c, setCharacter atofZero 16 sampleDialog 0 sampleCharacter = some c ∧
      c.member Member.level = 12 ∧
      DialogProc_WM_COMMAND atofZero ftoaZero 16 Command.IDC_COMBO2 0 sampleState
        = Outcome.ok
            { sampleState with records := Function.update sampleState.records 0x2000 c } := by
  obtain ⟨c, hc⟩ := setCharacter_some atofZero 16 sampleDialog 0 sampleCharacter (by decide)
  have hm := setCharacter_member atofZero 16 sampleDialog 0 sampleCharacter c hc Member.level
  have hl : c.member Member.level = 12 := by
    rw [hm]
    decide
  exact ⟨c, hc, hl,
    (C12_combo_commands_fall_through atofZero ftoaZero 16 0 sampleState).1 0 0x2000 c
      Command.IDC_COMBO2 (by decide) rfl rfl hc (Or.inr ⟨Or.inr rfl, by decide⟩)⟩

/-- C13: for an `int` index `i` and a vector `v` of fewer than 2^31 pointers, the lookup
`jabia_characters.at(i)` succeeds exactly when `0 ≤ i < v.size()`; it raises on the empty
vector and on index -1. When the first lookup of a `DialogProc` command (for `IDC_COMBO1`,
`IDC_COMBO2`, `IDSET` or `IDM_DUMP_CHARACTER`) is outside these bounds, the command ends
with `std::out_of_range` and leaves every character record, the vector, the text of the
dialog and the dumps as they were; on F7 in `MyThread` the thread ends with the exception
in that iteration, before `fillDialog`. -/
theorem C13_lookup_bounds (v : List Nat) (i : Int) (hi : -2 ^ 31 ≤ i ∧ i < 2 ^ 31)
    (hv : v.length < 2 ^ 31) :
    ((vector_at v i).isSome = true ↔ 0 ≤ i ∧ i < v.length) ∧
    vector_at [] i = none ∧
    vector_at v (-1) = none ∧
    (∀ (atof : List Char → Nat) (ftoa : Nat → List Char) (maxName : Nat) (id : Command)
        (code : Nat) (s : DialogState),
      id ∈ [Command.IDC_COMBO1, Command.IDC_COMBO2, Command.IDSET,
        Command.IDM_DUMP_CHARACTER] →
      s.jabia_characters = v → lookupIndex id code s = i → ¬ (0 ≤ i ∧ i < v.length) →
      ∃ s1, DialogProc_WM_COMMAND atof ftoa maxName id code s = Outcome.out_of_range s1 ∧
        s1.records = s.records ∧ s1.jabia_characters = s.jabia_characters ∧
        s1.hwnd = s.hwnd ∧ s1.dumps = s.dumps) ∧
    (∀ (m : Mem) (p : Poll) (rest : List Poll),
      p.f7 = true → p.jabia_characters = v → p.last_character_selected_index = i →
      ¬ (0 ≤ i ∧ i < v.length) →
      pollLoop m (p :: rest)
        = { exit := some Exit.out_of_range, mem := p.env m, iterations := 1 }) := by
  refine ⟨vector_at_isSome v i hi hv, ?_, ?_, ?_, ?_⟩
  · exact vector_at_none_of_not [] i hi (by decide) (by
      rintro ⟨h0, h1⟩
      simp only [List.length_nil, Nat.cast_zero] at h1
      omega)
  · exact vector_at_none_of_not v (-1) (by decide) hv (by
      rintro ⟨h0, _⟩
      omega)
  · intro atof ftoa maxName id code s hid hsv hidx hout
    apply DialogProc_lookup_fails atof ftoa maxName id code s hid
    rw [hsv, hidx]
    exact vector_at_none_of_not v i hi hv hout
  · intro m p rest hf hpv hidx hout
    apply pollLoop_lookup_fails m p rest hf
    rw [hpv, hidx]
    exact vector_at_none_of_not v i hi hv hout

/-- Witness of C13: one recorded character and index -1, the first combo box reporting no
selection when it closes up. -/
theorem C13_lookup_bounds_witness :
    vector_at [0x2000] (-1) = none ∧
    (∃ s1, DialogProc_WM_COMMAND atofZero ftoaZero 16 Command.IDC_COMBO1 CBN_CLOSEUP
        sampleState = Outcome.out_of_range s1 ∧ s1.records = sampleState.records ∧
      s1.jabia_characters = sampleState.jabia_characters) := by
  have h := C13_lookup_bounds [0x2000] (-1) (by decide) (by decide)
  obtain ⟨s1, h1, h2, h3, _, _⟩ := h.2.2.2.1 atofZero ftoaZero 16 Command.IDC_COMBO1
    CBN_CLOSEUP sampleState (by decide) rfl rfl (by decide)
  exact ⟨h.2.2.1, s1, h1, h2, h3⟩

end JABIA
